import Mathlib

/-!
Shallow embedding of the inference-session lifecycle controller in
src/src/flutter_onnxruntime_genai.cpp.

Engine (ONNX Runtime GenAI C API) calls are modelled by an oracle that
assigns each call site an outcome: an OgaResult pointer, i.e. `none`
for success (nullptr) or `some msg` for an error carrying message
`msg`.  Per the C API contract a successful create call always yields
a non-null out-object, so a successful outcome acquires the resource.
Each exported function returns its C return value together with the
final thread-local buffers (g_result_buffer / g_error_buffer) and a
trace of engine events: resource acquisitions, resource releases
(destroy calls) and the remaining engine calls.  Debug logging and
signal-handler instrumentation (DEBUG_LOG, init_debug_features) are
not modelled: the specification places logging and crash-signal
instrumentation out of scope.
-/

/-- An `OgaResult*` value: `none` = success (nullptr), `some msg` = error
with message `msg` (what `OgaResultGetError` returns). -/
abbrev OgaRes := Option String

/-- The native resources acquired and released by one call. -/
inductive Resource where
  | model
  | processor
  | tokenizer
  | sequences
  | imagePathArray
  | images
  | namedTensors
  | params
  | generator
  | stream
  | config
deriving DecidableEq

/-- The engine entry points invoked by the bridge. -/
inductive EngineFn where
  | createModel
  | createModelFromConfig
  | createProcessor
  | createTokenizer
  | createSequences
  | tokenizerEncode
  | createStringArray
  | createStringArrayFromStrings
  | addString (i : Nat)
  | loadImage
  | loadImages
  | processImages (hasImages : Bool)
  | createParams
  | setSearchNumber
  | createGenerator
  | appendTokenSequences
  | setInputs
  | createStream
  | isDone
  | generateNextToken
  | getNextTokens
  | streamDecode
  | createConfig
  | clearProviders
  | appendProvider
  | setProviderOption
  | ogaShutdown
deriving DecidableEq

/-- One engine interaction, as recorded in a call trace. -/
inductive Event where
  | acquire (r : Resource)
  | release (r : Resource)
  | callOk (f : EngineFn)
  | callErr (f : EngineFn)
deriving DecidableEq

/-- The thread-local buffers `g_result_buffer` and `g_error_buffer`. -/
structure Env where
  resultBuf : String
  errorBuf : String
deriving DecidableEq

/-- Per-call running state: the thread-local buffers plus the engine trace. -/
structure St where
  env : Env
  trace : List Event
deriving DecidableEq

/-- Outcome of one iteration of the token-generation loop. -/
inductive IterOutcome where
  /-- `OgaGenerator_GenerateNextToken` returned an error. -/
  | genFail (msg : String)
  /-- `OgaGenerator_GetNextTokens` returned an error. -/
  | getFail (msg : String)
  /-- `OgaGenerator_GetNextTokens` succeeded with `token_count == 0`. -/
  | noTokens
  /-- `OgaTokenizerStreamDecode` returned an error. -/
  | decodeFail (msg : String)
  /-- `OgaTokenizerStreamDecode` succeeded but the fragment is NULL. -/
  | decodeNull
  /-- The token decoded to the text fragment `frag`. -/
  | decoded (frag : String)
deriving DecidableEq

/-- The engine oracle: the outcome of every call site of one bridge call,
plus the address the engine gives a newly created config object. -/
structure Oracle where
  createModel : OgaRes
  createModelFromConfig : OgaRes
  createProcessor : OgaRes
  createTokenizer : OgaRes
  createSequences : OgaRes
  tokenizerEncode : OgaRes
  createStringArray : OgaRes
  createStringArrayFromStrings : OgaRes
  addString : Nat → OgaRes
  loadImage : OgaRes
  loadImages : OgaRes
  processImages : OgaRes
  createParams : OgaRes
  setSearchNumber : OgaRes
  createGenerator : OgaRes
  appendTokenSequences : OgaRes
  setInputs : OgaRes
  createStream : OgaRes
  createConfig : OgaRes
  clearProviders : OgaRes
  appendProvider : OgaRes
  setProviderOption : OgaRes
  configAddr : Nat
  iters : List IterOutcome

/-- `set_result`: copy into `g_result_buffer` and return a pointer to it. -/
def set_result (env : Env) (result : String) : String × Env :=
  (result, { env with resultBuf := result })

/-- `set_error`: prepend `"ERROR: "`, store in `g_error_buffer`, return it. -/
def set_error (env : Env) (error : String) : String × Env :=
  ("ERROR: " ++ error, { env with errorBuf := "ERROR: " ++ error })

/-- `check_oga_result`: on a non-null result store
`context ++ ": " ++ message` in `g_error_buffer` and report failure. -/
def check_oga_result (result : OgaRes) (context : String) (env : Env) :
    Bool × Env :=
  match result with
  | some error_msg => (true, { env with errorBuf := context ++ ": " ++ error_msg })
  | none => (false, env)

/-- Destroy calls for a list of resources, in the given order. -/
def relAll (rs : List Resource) : List Event :=
  rs.map Event.release

/-- A conditional cleanup entry (`if (x) OgaDestroyX(x)` in the source). -/
def optRes (b : Bool) (r : Resource) : List Resource :=
  if b then [r] else []

/-- An input-validation failure: `return set_error("...")` with no cleanup. -/
def retErr (st : St) (msg : String) : String × St :=
  let (r, env1) := set_error st.env msg
  (r, { st with env := env1 })

/-- A failing chain step: run the site's destroy calls, then
`return set_error(g_error_buffer)` (the buffer was already written by
`check_oga_result`). -/
def failReturn (st : St) (cleanup : List Resource) : String × St :=
  let st1 : St := { st with trace := st.trace ++ relAll cleanup }
  let (r, env1) := set_error st1.env st1.env.errorBuf
  (r, { st1 with env := env1 })

/-- A create call: `result = OgaCreateX(...)` followed by
`check_oga_result(result, context)`.  On success the resource `r` is
acquired. -/
def tryAcquire (st : St) (result : OgaRes) (context : String)
    (f : EngineFn) (r : Resource) : Bool × St :=
  let (failed, env1) := check_oga_result result context st.env
  if failed then
    (true, { env := env1, trace := st.trace ++ [Event.callErr f] })
  else
    (false, { env := env1, trace := st.trace ++ [Event.acquire r] })

/-- A non-creating engine call followed by `check_oga_result`. -/
def tryOp (st : St) (result : OgaRes) (context : String) (f : EngineFn) :
    Bool × St :=
  let (failed, env1) := check_oga_result result context st.env
  if failed then
    (true, { env := env1, trace := st.trace ++ [Event.callErr f] })
  else
    (false, { env := env1, trace := st.trace ++ [Event.callOk f] })

/-- `OgaGeneratorParamsSetSearchNumber(params, "max_length", ...)`: the
outcome is only logged (and the result destroyed); never fatal, no
buffer write. -/
def setSearchStep (st : St) (result : OgaRes) : St :=
  match result with
  | some _ => { st with trace := st.trace ++ [Event.callErr .setSearchNumber] }
  | none => { st with trace := st.trace ++ [Event.callOk .setSearchNumber] }

/-- The token-generation loop shared verbatim by all five inference
functions: `while (!OgaGenerator_IsDone(generator)) { ... }`.  The
oracle's iteration list gives the outcome of each iteration; the
generator reports done once the list is exhausted.  A generate or
get-tokens failure (or an empty token batch) breaks out of the loop; a
decode failure or NULL fragment skips the fragment and continues. -/
def runLoop (iters : List IterOutcome) (st : St) (acc : String) :
    String × St :=
  match iters with
  | [] => (acc, { st with trace := st.trace ++ [Event.callOk .isDone] })
  | it :: rest =>
    let st1 : St := { st with trace := st.trace ++ [Event.callOk .isDone] }
    match it with
    | .genFail d =>
      let (_, env1) := check_oga_result (some d) "Generate next token failed" st1.env
      (acc, { env := env1, trace := st1.trace ++ [Event.callErr .generateNextToken] })
    | .getFail d =>
      let (_, env1) := check_oga_result (some d) "Get next tokens failed" st1.env
      (acc, { env := env1,
              trace := st1.trace ++ [Event.callOk .generateNextToken, Event.callErr .getNextTokens] })
    | .noTokens =>
      (acc, { st1 with
              trace := st1.trace ++ [Event.callOk .generateNextToken, Event.callOk .getNextTokens] })
    | .decodeFail d =>
      let (_, env1) := check_oga_result (some d) "Token decode failed" st1.env
      runLoop rest
        { env := env1,
          trace := st1.trace ++ [Event.callOk .generateNextToken, Event.callOk .getNextTokens,
                   Event.callErr .streamDecode] } acc
    | .decodeNull =>
      runLoop rest
        { st1 with
          trace := st1.trace ++ [Event.callOk .generateNextToken, Event.callOk .getNextTokens,
                   Event.callOk .streamDecode] } acc
    | .decoded f =>
      runLoop rest
        { st1 with
          trace := st1.trace ++ [Event.callOk .generateNextToken, Event.callOk .getNextTokens,
                   Event.callOk .streamDecode] } (acc ++ f)

/-- `run_text_inference(model_path, prompt, max_length)`. -/
def run_text_inference (o : Oracle) (model_path prompt : Option String)
    (max_length : Int) (env : Env) : String × St :=
  let st0 : St := { env := env, trace := [] }
  if model_path = none ∨ prompt = none then
    retErr st0 "NULL model_path or prompt provided"
  else
  match tryAcquire st0 o.createModel "Model creation failed" .createModel .model with
  | (true, st) => failReturn st []
  | (false, st) =>
  match tryAcquire st o.createTokenizer "Tokenizer creation failed" .createTokenizer .tokenizer with
  | (true, st) => failReturn st [.model]
  | (false, st) =>
  match tryAcquire st o.createSequences "Sequences creation failed" .createSequences .sequences with
  | (true, st) => failReturn st [.tokenizer, .model]
  | (false, st) =>
  match tryOp st o.tokenizerEncode "Tokenization failed" .tokenizerEncode with
  | (true, st) => failReturn st [.sequences, .tokenizer, .model]
  | (false, st) =>
  match tryAcquire st o.createParams "Generator params creation failed" .createParams .params with
  | (true, st) => failReturn st [.sequences, .tokenizer, .model]
  | (false, st) =>
  let st := if max_length > 0 then setSearchStep st o.setSearchNumber else st
  match tryAcquire st o.createGenerator "Generator creation failed" .createGenerator .generator with
  | (true, st) => failReturn st [.params, .sequences, .tokenizer, .model]
  | (false, st) =>
  match tryOp st o.appendTokenSequences "Setting input sequences failed" .appendTokenSequences with
  | (true, st) => failReturn st [.generator, .params, .sequences, .tokenizer, .model]
  | (false, st) =>
  match tryAcquire st o.createStream "Tokenizer stream creation failed" .createStream .stream with
  | (true, st) => failReturn st [.generator, .params, .sequences, .tokenizer, .model]
  | (false, st) =>
  let (generated_text, st) := runLoop o.iters st ""
  let st : St := { st with
    trace := st.trace ++ relAll [.stream, .generator, .params, .sequences, .tokenizer, .model] }
  let (r, env1) := set_result st.env generated_text
  (r, { st with env := env1 })

/-- `check_native_health(model_path)`. -/
def check_native_health (o : Oracle) (model_path : Option String) (env : Env) :
    Int × St :=
  let st0 : St := { env := env, trace := [] }
  match model_path with
  | none => (-1, st0)
  | some mp =>
    if mp = "" then (-1, st0)
    else
      match tryAcquire st0 o.createModel "Model creation failed" .createModel .model with
      | (true, st) => (-2, st)
      | (false, st) =>
        match tryAcquire st o.createTokenizer "Tokenizer creation failed" .createTokenizer .tokenizer with
        | (true, st) => (-3, { st with trace := st.trace ++ relAll [.model] })
        | (false, st) => (1, { st with trace := st.trace ++ relAll [.tokenizer, .model] })

/-- The optional single-image load of `run_inference` and
`run_inference_with_config`: `if (image_path != nullptr &&
strlen(image_path) > 0) { OgaLoadImage(...) }`, with the failure path
destroying tokenizer, processor and model.  Returns whether an image
batch was acquired. -/
def loadImageStep (o : Oracle) (image_path : Option String) (st : St) :
    Except (String × St) (Bool × St) :=
  match image_path with
  | some ip =>
    if ip = "" then .ok (false, st)
    else
      match tryAcquire st o.loadImage "Image loading failed" .loadImage .images with
      | (true, st1) => .error (failReturn st1 [.tokenizer, .processor, .model])
      | (false, st1) => .ok (true, st1)
  | none => .ok (false, st)

/-- The image-batch load of `run_inference_multi`: when `image_count > 0`,
build an `OgaStringArray` from the path array and load all images; on
failure destroy what is held so far.  Returns whether the image batch
(and path array) were acquired. -/
def loadImagesMultiStep (o : Oracle) (image_count : Int) (st : St) :
    Except (String × St) (Bool × St) :=
  if image_count > 0 then
    match tryAcquire st o.createStringArrayFromStrings "String array creation failed"
        .createStringArrayFromStrings .imagePathArray with
    | (true, st1) => .error (failReturn st1 [.tokenizer, .processor, .model])
    | (false, st1) =>
      match tryAcquire st1 o.loadImages "Image loading failed" .loadImages .images with
      | (true, st2) => .error (failReturn st2 [.imagePathArray, .tokenizer, .processor, .model])
      | (false, st2) => .ok (true, st2)
  else .ok (false, st)

/-- Steps 5-11 shared verbatim by `run_inference` and
`run_inference_with_config`: multimodal processing, generator params
(with the 2048 `max_length` safety default), generator, input binding,
tokenizer stream, the generation loop and the final cleanup.
`hasImages` records whether an image batch was acquired. -/
def mmTail (o : Oracle) (hasImages : Bool) (st : St) : String × St :=
  match tryAcquire st o.processImages "Multimodal processing failed" (.processImages hasImages) .namedTensors with
  | (true, st) => failReturn st (optRes hasImages .images ++ [.tokenizer, .processor, .model])
  | (false, st) =>
  match tryAcquire st o.createParams "Generator params creation failed" .createParams .params with
  | (true, st) => failReturn st ([.namedTensors] ++ optRes hasImages .images ++ [.tokenizer, .processor, .model])
  | (false, st) =>
  let st := setSearchStep st o.setSearchNumber
  match tryAcquire st o.createGenerator "Generator creation failed" .createGenerator .generator with
  | (true, st) => failReturn st ([.params, .namedTensors] ++ optRes hasImages .images ++ [.tokenizer, .processor, .model])
  | (false, st) =>
  match tryOp st o.setInputs "Setting input tensors failed" .setInputs with
  | (true, st) => failReturn st ([.generator, .params, .namedTensors] ++ optRes hasImages .images ++ [.tokenizer, .processor, .model])
  | (false, st) =>
  match tryAcquire st o.createStream "Tokenizer stream creation failed" .createStream .stream with
  | (true, st) => failReturn st ([.generator, .params, .namedTensors] ++ optRes hasImages .images ++ [.tokenizer, .processor, .model])
  | (false, st) =>
  let (generated_text, st) := runLoop o.iters st ""
  let st : St := { st with
    trace := st.trace ++ relAll ([.stream, .generator, .params, .namedTensors]
      ++ optRes hasImages .images ++ [.tokenizer, .processor, .model]) }
  let (r, env1) := set_result st.env generated_text
  (r, { st with env := env1 })

/-- `run_inference(model_path, prompt, image_path)`. -/
def run_inference (o : Oracle) (model_path prompt image_path : Option String)
    (env : Env) : String × St :=
  let st0 : St := { env := env, trace := [] }
  if model_path = none ∨ prompt = none then
    retErr st0 "NULL model_path or prompt provided"
  else
  match tryAcquire st0 o.createModel "Model creation failed" .createModel .model with
  | (true, st) => failReturn st []
  | (false, st) =>
  match tryAcquire st o.createProcessor "MultiModal processor creation failed" .createProcessor .processor with
  | (true, st) => failReturn st [.model]
  | (false, st) =>
  match tryAcquire st o.createTokenizer "Tokenizer creation failed" .createTokenizer .tokenizer with
  | (true, st) => failReturn st [.processor, .model]
  | (false, st) =>
  match loadImageStep o image_path st with
  | .error r => r
  | .ok (hasImages, st) => mmTail o hasImages st

/-- Steps 6-12 of `run_inference_multi`: as `mmTail`, with the image
path array also released (after the image batch) when acquired. -/
def mmTailMulti (o : Oracle) (hasImages : Bool) (st : St) : String × St :=
  match tryAcquire st o.processImages "Multimodal processing failed" (.processImages hasImages) .namedTensors with
  | (true, st) => failReturn st (optRes hasImages .images ++ optRes hasImages .imagePathArray ++ [.tokenizer, .processor, .model])
  | (false, st) =>
  match tryAcquire st o.createParams "Generator params creation failed" .createParams .params with
  | (true, st) => failReturn st ([.namedTensors] ++ optRes hasImages .images ++ optRes hasImages .imagePathArray ++ [.tokenizer, .processor, .model])
  | (false, st) =>
  let st := setSearchStep st o.setSearchNumber
  match tryAcquire st o.createGenerator "Generator creation failed" .createGenerator .generator with
  | (true, st) => failReturn st ([.params, .namedTensors] ++ optRes hasImages .images ++ optRes hasImages .imagePathArray ++ [.tokenizer, .processor, .model])
  | (false, st) =>
  match tryOp st o.setInputs "Setting input tensors failed" .setInputs with
  | (true, st) => failReturn st ([.generator, .params, .namedTensors] ++ optRes hasImages .images ++ optRes hasImages .imagePathArray ++ [.tokenizer, .processor, .model])
  | (false, st) =>
  match tryAcquire st o.createStream "Tokenizer stream creation failed" .createStream .stream with
  | (true, st) => failReturn st ([.generator, .params, .namedTensors] ++ optRes hasImages .images ++ optRes hasImages .imagePathArray ++ [.tokenizer, .processor, .model])
  | (false, st) =>
  let (generated_text, st) := runLoop o.iters st ""
  let st : St := { st with
    trace := st.trace ++ relAll ([.stream, .generator, .params, .namedTensors]
      ++ optRes hasImages .images ++ optRes hasImages .imagePathArray
      ++ [.tokenizer, .processor, .model]) }
  let (r, env1) := set_result st.env generated_text
  (r, { st with env := env1 })

/-- `run_inference_multi(model_path, prompt, image_paths, image_count)`.
The path array pointer is modelled as an index function. -/
def run_inference_multi (o : Oracle) (model_path prompt : Option String)
    (image_paths : Option (Nat → Option String)) (image_count : Int)
    (env : Env) : String × St :=
  let st0 : St := { env := env, trace := [] }
  if model_path = none ∨ prompt = none then
    retErr st0 "NULL model_path or prompt provided"
  else
  if image_count > 0 ∧ image_paths.isNone then
    retErr st0 "image_paths is NULL but image_count > 0"
  else
  match tryAcquire st0 o.createModel "Model creation failed" .createModel .model with
  | (true, st) => failReturn st []
  | (false, st) =>
  match tryAcquire st o.createProcessor "MultiModal processor creation failed" .createProcessor .processor with
  | (true, st) => failReturn st [.model]
  | (false, st) =>
  match tryAcquire st o.createTokenizer "Tokenizer creation failed" .createTokenizer .tokenizer with
  | (true, st) => failReturn st [.processor, .model]
  | (false, st) =>
  match loadImagesMultiStep o image_count st with
  | .error r => r
  | .ok (hasImages, st) => mmTailMulti o hasImages st

/-- `run_inference_with_config(config_handle, prompt, image_path)`. -/
def run_inference_with_config (o : Oracle) (config_handle : Nat)
    (prompt image_path : Option String) (env : Env) : String × St :=
  let st0 : St := { env := env, trace := [] }
  if config_handle = 0 then
    retErr st0 "NULL config handle"
  else
  if prompt = none then
    retErr st0 "NULL prompt provided"
  else
  match tryAcquire st0 o.createModelFromConfig "Model creation from config failed" .createModelFromConfig .model with
  | (true, st) => failReturn st []
  | (false, st) =>
  match tryAcquire st o.createProcessor "MultiModal processor creation failed" .createProcessor .processor with
  | (true, st) => failReturn st [.model]
  | (false, st) =>
  match tryAcquire st o.createTokenizer "Tokenizer creation failed" .createTokenizer .tokenizer with
  | (true, st) => failReturn st [.processor, .model]
  | (false, st) =>
  match loadImageStep o image_path st with
  | .error r => r
  | .ok (hasImages, st) => mmTail o hasImages st

/-- Result of the per-index `OgaStringArrayAddString` loop of
`run_inference_multi_with_config`. -/
inductive AddLoopResult where
  | okDone
  | failNull
  | failAdd
deriving DecidableEq

/-- The `for (int i = 0; i < image_count; i++)` loop of
`run_inference_multi_with_config`: a NULL path entry or a failing
`OgaStringArrayAddString` aborts the loop.  `n` is the number of
remaining indices, `i` the next index. -/
def addImagePathsLoop (o : Oracle) (paths : Nat → Option String) :
    Nat → Nat → St → AddLoopResult × St
  | 0, _, st => (.okDone, st)
  | n + 1, i, st =>
    match paths i with
    | none => (.failNull, st)
    | some _ =>
      match tryOp st (o.addString i) "Add image path failed" (.addString i) with
      | (true, st1) => (.failAdd, st1)
      | (false, st1) => addImagePathsLoop o paths n (i + 1) st1

/-- The image-batch load of `run_inference_multi_with_config`: when
`image_count > 0`, create an empty `OgaStringArray`, add each path (a
NULL entry is rejected with its own `set_error`), then load all
images. -/
def loadImagesMultiCfgStep (o : Oracle) (image_paths : Nat → Option String)
    (image_count : Int) (st : St) : Except (String × St) (Bool × St) :=
  if image_count > 0 then
    match tryAcquire st o.createStringArray "String array creation failed"
        .createStringArray .imagePathArray with
    | (true, st1) => .error (failReturn st1 [.tokenizer, .processor, .model])
    | (false, st1) =>
      match addImagePathsLoop o image_paths image_count.toNat 0 st1 with
      | (.failNull, st2) =>
        let st3 : St := { st2 with
          trace := st2.trace ++ relAll [.imagePathArray, .tokenizer, .processor, .model] }
        .error (retErr st3 "NULL image path in array")
      | (.failAdd, st2) =>
        .error (failReturn st2 [.imagePathArray, .tokenizer, .processor, .model])
      | (.okDone, st2) =>
        match tryAcquire st2 o.loadImages "Image loading failed" .loadImages .images with
        | (true, st3) => .error (failReturn st3 [.imagePathArray, .tokenizer, .processor, .model])
        | (false, st3) => .ok (true, st3)
  else .ok (false, st)

/-- Steps 5-11 of `run_inference_multi_with_config`: as `mmTailMulti`
but with context "Processing failed" for the processor call and with
no `max_length` default (this variant never calls
`OgaGeneratorParamsSetSearchNumber`). -/
def mmTailMultiCfg (o : Oracle) (hasImages : Bool) (st : St) : String × St :=
  match tryAcquire st o.processImages "Processing failed" (.processImages hasImages) .namedTensors with
  | (true, st) => failReturn st (optRes hasImages .images ++ optRes hasImages .imagePathArray ++ [.tokenizer, .processor, .model])
  | (false, st) =>
  match tryAcquire st o.createParams "Generator params creation failed" .createParams .params with
  | (true, st) => failReturn st ([.namedTensors] ++ optRes hasImages .images ++ optRes hasImages .imagePathArray ++ [.tokenizer, .processor, .model])
  | (false, st) =>
  match tryAcquire st o.createGenerator "Generator creation failed" .createGenerator .generator with
  | (true, st) => failReturn st ([.params, .namedTensors] ++ optRes hasImages .images ++ optRes hasImages .imagePathArray ++ [.tokenizer, .processor, .model])
  | (false, st) =>
  match tryOp st o.setInputs "Setting input tensors failed" .setInputs with
  | (true, st) => failReturn st ([.generator, .params, .namedTensors] ++ optRes hasImages .images ++ optRes hasImages .imagePathArray ++ [.tokenizer, .processor, .model])
  | (false, st) =>
  match tryAcquire st o.createStream "Tokenizer stream creation failed" .createStream .stream with
  | (true, st) => failReturn st ([.generator, .params, .namedTensors] ++ optRes hasImages .images ++ optRes hasImages .imagePathArray ++ [.tokenizer, .processor, .model])
  | (false, st) =>
  let (generated_text, st) := runLoop o.iters st ""
  let st : St := { st with
    trace := st.trace ++ relAll ([.stream, .generator, .params, .namedTensors]
      ++ optRes hasImages .images ++ optRes hasImages .imagePathArray
      ++ [.tokenizer, .processor, .model]) }
  let (r, env1) := set_result st.env generated_text
  (r, { st with env := env1 })

/-- `run_inference_multi_with_config(config_handle, prompt, image_paths,
image_count)`. -/
def run_inference_multi_with_config (o : Oracle) (config_handle : Nat)
    (prompt : Option String) (image_paths : Option (Nat → Option String))
    (image_count : Int) (env : Env) : String × St :=
  let st0 : St := { env := env, trace := [] }
  if config_handle = 0 then
    retErr st0 "NULL config handle"
  else
  if prompt = none then
    retErr st0 "NULL prompt provided"
  else
  if image_count > 0 ∧ image_paths.isNone then
    retErr st0 "NULL image_paths with image_count > 0"
  else
  match tryAcquire st0 o.createModelFromConfig "Model creation from config failed" .createModelFromConfig .model with
  | (true, st) => failReturn st []
  | (false, st) =>
  match tryAcquire st o.createProcessor "MultiModal processor creation failed" .createProcessor .processor with
  | (true, st) => failReturn st [.model]
  | (false, st) =>
  match tryAcquire st o.createTokenizer "Tokenizer creation failed" .createTokenizer .tokenizer with
  | (true, st) => failReturn st [.processor, .model]
  | (false, st) =>
  match loadImagesMultiCfgStep o (fun i => (image_paths.getD (fun _ => none)) i) image_count st with
  | .error r => r
  | .ok (hasImages, st) => mmTailMultiCfg o hasImages st

/-- `create_config(model_path)`: returns the address of the new config
object as an opaque handle, or `0` on failure. -/
def create_config (o : Oracle) (model_path : Option String) (env : Env) :
    Nat × St :=
  let st0 : St := { env := env, trace := [] }
  match model_path with
  | none =>
    let (_, env1) := set_error st0.env "NULL or empty model_path provided"
    (0, { st0 with env := env1 })
  | some mp =>
    if mp = "" then
      let (_, env1) := set_error st0.env "NULL or empty model_path provided"
      (0, { st0 with env := env1 })
    else
      match tryAcquire st0 o.createConfig "Config creation failed" .createConfig .config with
      | (true, st) => (0, st)
      | (false, st) => (o.configAddr, st)

/-- `destroy_config(config_handle)`: a no-op on the `0` handle, otherwise
one `OgaDestroyConfig` call. -/
def destroy_config (config_handle : Nat) : List Event :=
  if config_handle = 0 then [] else [Event.release .config]

/-- `config_clear_providers(config_handle)`. -/
def config_clear_providers (o : Oracle) (config_handle : Nat) (env : Env) :
    Int × St :=
  let st0 : St := { env := env, trace := [] }
  if config_handle = 0 then
    let (_, env1) := set_error st0.env "NULL config handle"
    (-1, { st0 with env := env1 })
  else
    match tryOp st0 o.clearProviders "Clear providers failed" .clearProviders with
    | (true, st) => (-2, st)
    | (false, st) => (1, st)

/-- `config_append_provider(config_handle, provider_name)`. -/
def config_append_provider (o : Oracle) (config_handle : Nat)
    (provider_name : Option String) (env : Env) : Int × St :=
  let st0 : St := { env := env, trace := [] }
  if config_handle = 0 then
    let (_, env1) := set_error st0.env "NULL config handle"
    (-1, { st0 with env := env1 })
  else
    match provider_name with
    | none =>
      let (_, env1) := set_error st0.env "NULL or empty provider name"
      (-2, { st0 with env := env1 })
    | some name =>
      if name = "" then
        let (_, env1) := set_error st0.env "NULL or empty provider name"
        (-2, { st0 with env := env1 })
      else
        match tryOp st0 o.appendProvider "Append provider failed" .appendProvider with
        | (true, st) => (-3, st)
        | (false, st) => (1, st)

/-- `config_set_provider_option(config_handle, provider_name, key, value)`.
Only NULL (not empty) parameters are rejected. -/
def config_set_provider_option (o : Oracle) (config_handle : Nat)
    (provider_name key value : Option String) (env : Env) : Int × St :=
  let st0 : St := { env := env, trace := [] }
  if config_handle = 0 then
    let (_, env1) := set_error st0.env "NULL config handle"
    (-1, { st0 with env := env1 })
  else
    if provider_name = none ∨ key = none ∨ value = none then
      let (_, env1) := set_error st0.env "NULL parameter"
      (-2, { st0 with env := env1 })
    else
      match tryOp st0 o.setProviderOption "Set provider option failed" .setProviderOption with
      | (true, st) => (-3, st)
      | (false, st) => (1, st)

/-- `shutdown_onnx_genai()`: calls `OgaShutdown` only when `g_initialized`
holds, then clears the flag. -/
def shutdown_onnx_genai (g_initialized : Bool) : Bool × List Event :=
  if g_initialized then (false, [Event.callOk .ogaShutdown]) else (g_initialized, [])

/-- The initial value of the process-wide flag `g_initialized`. -/
def g_initialized_init : Bool := false

/-- `get_library_version()`. -/
def get_library_version : String := "0.3.0"

/-- `get_last_error()`: returns the content of `g_error_buffer`. -/
def get_last_error (env : Env) : String :=
  env.errorBuf

/-- Process-wide observable state of one (single-threaded) client:
the `g_initialized` flag and the thread-local buffers. -/
structure Sys where
  initialized : Bool
  env : Env
deriving DecidableEq

/-- The initial process state: `g_initialized = false`, empty buffers. -/
def initSys : Sys :=
  { initialized := g_initialized_init, env := { resultBuf := "", errorBuf := "" } }

/-- One invocation of an exported entry point, with the engine outcomes
it will observe. -/
inductive ApiCall where
  | healthCheck (o : Oracle) (mp : Option String)
  | textInference (o : Oracle) (mp p : Option String) (len : Int)
  | inference (o : Oracle) (mp p ip : Option String)
  | inferenceMulti (o : Oracle) (mp p : Option String)
      (paths : Option (Nat → Option String)) (count : Int)
  | inferenceWithConfig (o : Oracle) (h : Nat) (p ip : Option String)
  | inferenceMultiWithConfig (o : Oracle) (h : Nat) (p : Option String)
      (paths : Option (Nat → Option String)) (count : Int)
  | createConfigCall (o : Oracle) (mp : Option String)
  | destroyConfigCall (h : Nat)
  | clearProvidersCall (o : Oracle) (h : Nat)
  | appendProviderCall (o : Oracle) (h : Nat) (name : Option String)
  | setProviderOptionCall (o : Oracle) (h : Nat) (provider key value : Option String)
  | shutdownCall
  | getVersionCall
  | getLastErrorCall

/-- Dispatch one exported call against the process state.  Only
`shutdown_onnx_genai` touches `g_initialized`. -/
def stepSys (s : Sys) (c : ApiCall) : Sys × List Event :=
  match c with
  | .healthCheck o mp =>
    let (_, st) := check_native_health o mp s.env
    ({ s with env := st.env }, st.trace)
  | .textInference o mp p len =>
    let (_, st) := run_text_inference o mp p len s.env
    ({ s with env := st.env }, st.trace)
  | .inference o mp p ip =>
    let (_, st) := run_inference o mp p ip s.env
    ({ s with env := st.env }, st.trace)
  | .inferenceMulti o mp p paths count =>
    let (_, st) := run_inference_multi o mp p paths count s.env
    ({ s with env := st.env }, st.trace)
  | .inferenceWithConfig o h p ip =>
    let (_, st) := run_inference_with_config o h p ip s.env
    ({ s with env := st.env }, st.trace)
  | .inferenceMultiWithConfig o h p paths count =>
    let (_, st) := run_inference_multi_with_config o h p paths count s.env
    ({ s with env := st.env }, st.trace)
  | .createConfigCall o mp =>
    let (_, st) := create_config o mp s.env
    ({ s with env := st.env }, st.trace)
  | .destroyConfigCall h =>
    (s, destroy_config h)
  | .clearProvidersCall o h =>
    let (_, st) := config_clear_providers o h s.env
    ({ s with env := st.env }, st.trace)
  | .appendProviderCall o h name =>
    let (_, st) := config_append_provider o h name s.env
    ({ s with env := st.env }, st.trace)
  | .setProviderOptionCall o h provider key value =>
    let (_, st) := config_set_provider_option o h provider key value s.env
    ({ s with env := st.env }, st.trace)
  | .shutdownCall =>
    let (b, ev) := shutdown_onnx_genai s.initialized
    ({ s with initialized := b }, ev)
  | .getVersionCall => (s, [])
  | .getLastErrorCall => (s, [])

/-- Run a sequence of exported calls, concatenating the engine traces. -/
def runCalls : Sys → List ApiCall → Sys × List Event
  | s, [] => (s, [])
  | s, c :: rest =>
    let (s1, ev1) := stepSys s c
    let (s2, ev2) := runCalls s1 rest
    (s2, ev1 ++ ev2)

/-- The resource an event acquires, if any. -/
def eventAcq : Event → Option Resource
  | .acquire r => some r
  | _ => none

/-- The resource an event releases, if any. -/
def eventRel : Event → Option Resource
  | .release r => some r
  | _ => none

/-- The resources a trace acquires, in order. -/
def acquiresOf (t : List Event) : List Resource :=
  t.filterMap eventAcq

/-- The resources a trace releases, in order. -/
def releasesOf (t : List Event) : List Resource :=
  t.filterMap eventRel

/-- Iterations that break out of the generation loop. -/
def isBreakIter : IterOutcome → Bool
  | .genFail _ => true
  | .getFail _ => true
  | .noTokens => true
  | _ => false

/-- The text fragment an iteration appends, if any. -/
def fragOf : IterOutcome → Option String
  | .decoded f => some f
  | _ => none

/-- The fragments the generation loop accumulates: those of the
successfully decoded tokens before the first breaking iteration. -/
def loopFrags (l : List IterOutcome) : List String :=
  (l.takeWhile fun it => !isBreakIter it).filterMap fragOf

/-- Iterations that neither break the loop nor write the error buffer. -/
def iterOk : IterOutcome → Bool
  | .decoded _ => true
  | .decodeNull => true
  | _ => false

/-- Every iteration of the loop fully succeeds. -/
def itersOk (l : List IterOutcome) : Bool :=
  l.all iterOk

/-- A non-NULL, non-empty C string argument. -/
def nonEmptyStr : Option String → Bool
  | some s => s != ""
  | none => false

@[simp] theorem acquiresOf_nil : acquiresOf [] = [] := rfl

@[simp] theorem releasesOf_nil : releasesOf [] = [] := rfl

@[simp] theorem acquiresOf_append (s t : List Event) :
    acquiresOf (s ++ t) = acquiresOf s ++ acquiresOf t :=
  List.filterMap_append s t eventAcq

@[simp] theorem releasesOf_append (s t : List Event) :
    releasesOf (s ++ t) = releasesOf s ++ releasesOf t :=
  List.filterMap_append s t eventRel

@[simp] theorem acquiresOf_cons_acquire (r : Resource) (t : List Event) :
    acquiresOf (Event.acquire r :: t) = r :: acquiresOf t := rfl

@[simp] theorem acquiresOf_cons_release (r : Resource) (t : List Event) :
    acquiresOf (Event.release r :: t) = acquiresOf t := rfl

@[simp] theorem acquiresOf_cons_callOk (f : EngineFn) (t : List Event) :
    acquiresOf (Event.callOk f :: t) = acquiresOf t := rfl

@[simp] theorem acquiresOf_cons_callErr (f : EngineFn) (t : List Event) :
    acquiresOf (Event.callErr f :: t) = acquiresOf t := rfl

@[simp] theorem releasesOf_cons_acquire (r : Resource) (t : List Event) :
    releasesOf (Event.acquire r :: t) = releasesOf t := rfl

@[simp] theorem releasesOf_cons_release (r : Resource) (t : List Event) :
    releasesOf (Event.release r :: t) = r :: releasesOf t := rfl

@[simp] theorem releasesOf_cons_callOk (f : EngineFn) (t : List Event) :
    releasesOf (Event.callOk f :: t) = releasesOf t := rfl

@[simp] theorem releasesOf_cons_callErr (f : EngineFn) (t : List Event) :
    releasesOf (Event.callErr f :: t) = releasesOf t := rfl

@[simp] theorem acquiresOf_relAll (rs : List Resource) :
    acquiresOf (relAll rs) = [] := by
  induction rs with
  | nil => rfl
  | cons r rs ih => simpa [relAll] using ih

@[simp] theorem releasesOf_relAll (rs : List Resource) :
    releasesOf (relAll rs) = rs := by
  induction rs with
  | nil => rfl
  | cons r rs ih => simpa [relAll] using ih

@[simp] theorem setSearchStep_env (st : St) (r : OgaRes) :
    (setSearchStep st r).env = st.env := by
  cases r <;> simp [setSearchStep]

@[simp] theorem acquiresOf_setSearchStep (st : St) (r : OgaRes) :
    acquiresOf (setSearchStep st r).trace = acquiresOf st.trace := by
  cases r <;> simp [setSearchStep]

@[simp] theorem releasesOf_setSearchStep (st : St) (r : OgaRes) :
    releasesOf (setSearchStep st r).trace = releasesOf st.trace := by
  cases r <;> simp [setSearchStep]

theorem runLoop_acquires (l : List IterOutcome) (st : St) (acc : String) :
    acquiresOf (runLoop l st acc).2.trace = acquiresOf st.trace := by
  induction l generalizing st acc with
  | nil => simp [runLoop]
  | cons it rest ih => cases it <;> simp [runLoop, check_oga_result, ih]

theorem runLoop_releases (l : List IterOutcome) (st : St) (acc : String) :
    releasesOf (runLoop l st acc).2.trace = releasesOf st.trace := by
  induction l generalizing st acc with
  | nil => simp [runLoop]
  | cons it rest ih => cases it <;> simp [runLoop, check_oga_result, ih]

theorem relacq_run_text_inference (o : Oracle) (mp p : Option String)
    (len : Int) (env : Env) :
    releasesOf (run_text_inference o mp p len env).2.trace
      = (acquiresOf (run_text_inference o mp p len env).2.trace).reverse := by
  unfold run_text_inference
  split
  · simp [retErr, set_error]
  · cases h1 : o.createModel with
    | some d => simp [tryAcquire, check_oga_result, h1, failReturn, relAll]
    | none =>
    cases h2 : o.createTokenizer with
    | some d => simp [tryAcquire, check_oga_result, h1, h2, failReturn, relAll]
    | none =>
    cases h3 : o.createSequences with
    | some d => simp [tryAcquire, check_oga_result, h1, h2, h3, failReturn, relAll]
    | none =>
    cases h4 : o.tokenizerEncode with
    | some d => simp [tryAcquire, tryOp, check_oga_result, h1, h2, h3, h4, failReturn, relAll]
    | none =>
    cases h5 : o.createParams with
    | some d => simp [tryAcquire, tryOp, check_oga_result, h1, h2, h3, h4, h5, failReturn, relAll]
    | none =>
    cases h6 : o.createGenerator with
    | some d =>
      simp [tryAcquire, tryOp, check_oga_result, h1, h2, h3, h4, h5, h6, failReturn, relAll]
      split <;> simp
    | none =>
    cases h7 : o.appendTokenSequences with
    | some d =>
      simp [tryAcquire, tryOp, check_oga_result, h1, h2, h3, h4, h5, h6, h7, failReturn, relAll]
      split <;> simp
    | none =>
    cases h8 : o.createStream with
    | some d =>
      simp [tryAcquire, tryOp, check_oga_result, h1, h2, h3, h4, h5, h6, h7, h8, failReturn, relAll]
      split <;> simp
    | none =>
      simp [tryAcquire, tryOp, check_oga_result, h1, h2, h3, h4, h5, h6, h7, h8,
        runLoop_acquires, runLoop_releases, set_result, relAll]
      split <;> simp

theorem relacq_mmTail (o : Oracle) (b : Bool) (st : St)
    (hA : acquiresOf st.trace = [.model, .processor, .tokenizer] ++ optRes b .images)
    (hR : releasesOf st.trace = []) :
    releasesOf (mmTail o b st).2.trace
      = (acquiresOf (mmTail o b st).2.trace).reverse := by
  unfold mmTail
  cases hp : o.processImages with
  | some d =>
    cases b <;> simp [tryAcquire, check_oga_result, hp, failReturn, relAll, optRes, hA, hR]
  | none =>
  cases h2 : o.createParams with
  | some d =>
    cases b <;> simp [tryAcquire, check_oga_result, hp, h2, failReturn, relAll, optRes, hA, hR]
  | none =>
  cases h3 : o.createGenerator with
  | some d =>
    cases b <;> simp [tryAcquire, check_oga_result, hp, h2, h3, failReturn, relAll, optRes, hA, hR]
  | none =>
  cases h4 : o.setInputs with
  | some d =>
    cases b <;> simp [tryAcquire, tryOp, check_oga_result, hp, h2, h3, h4, failReturn, relAll, optRes, hA, hR]
  | none =>
  cases h5 : o.createStream with
  | some d =>
    cases b <;> simp [tryAcquire, tryOp, check_oga_result, hp, h2, h3, h4, h5, failReturn, relAll, optRes, hA, hR]
  | none =>
    cases b <;>
      simp [tryAcquire, tryOp, check_oga_result, hp, h2, h3, h4, h5,
        runLoop_acquires, runLoop_releases, set_result, relAll, optRes, hA, hR]

theorem relacq_mmTailMulti (o : Oracle) (b : Bool) (st : St)
    (hA : acquiresOf st.trace
      = [.model, .processor, .tokenizer] ++ optRes b .imagePathArray ++ optRes b .images)
    (hR : releasesOf st.trace = []) :
    releasesOf (mmTailMulti o b st).2.trace
      = (acquiresOf (mmTailMulti o b st).2.trace).reverse := by
  unfold mmTailMulti
  cases hp : o.processImages with
  | some d =>
    cases b <;> simp [tryAcquire, check_oga_result, hp, failReturn, relAll, optRes, hA, hR]
  | none =>
  cases h2 : o.createParams with
  | some d =>
    cases b <;> simp [tryAcquire, check_oga_result, hp, h2, failReturn, relAll, optRes, hA, hR]
  | none =>
  cases h3 : o.createGenerator with
  | some d =>
    cases b <;> simp [tryAcquire, check_oga_result, hp, h2, h3, failReturn, relAll, optRes, hA, hR]
  | none =>
  cases h4 : o.setInputs with
  | some d =>
    cases b <;> simp [tryAcquire, tryOp, check_oga_result, hp, h2, h3, h4, failReturn, relAll, optRes, hA, hR]
  | none =>
  cases h5 : o.createStream with
  | some d =>
    cases b <;> simp [tryAcquire, tryOp, check_oga_result, hp, h2, h3, h4, h5, failReturn, relAll, optRes, hA, hR]
  | none =>
    cases b <;>
      simp [tryAcquire, tryOp, check_oga_result, hp, h2, h3, h4, h5,
        runLoop_acquires, runLoop_releases, set_result, relAll, optRes, hA, hR]

theorem relacq_mmTailMultiCfg (o : Oracle) (b : Bool) (st : St)
    (hA : acquiresOf st.trace
      = [.model, .processor, .tokenizer] ++ optRes b .imagePathArray ++ optRes b .images)
    (hR : releasesOf st.trace = []) :
    releasesOf (mmTailMultiCfg o b st).2.trace
      = (acquiresOf (mmTailMultiCfg o b st).2.trace).reverse := by
  unfold mmTailMultiCfg
  cases hp : o.processImages with
  | some d =>
    cases b <;> simp [tryAcquire, check_oga_result, hp, failReturn, relAll, optRes, hA, hR]
  | none =>
  cases h2 : o.createParams with
  | some d =>
    cases b <;> simp [tryAcquire, check_oga_result, hp, h2, failReturn, relAll, optRes, hA, hR]
  | none =>
  cases h3 : o.createGenerator with
  | some d =>
    cases b <;> simp [tryAcquire, check_oga_result, hp, h2, h3, failReturn, relAll, optRes, hA, hR]
  | none =>
  cases h4 : o.setInputs with
  | some d =>
    cases b <;> simp [tryAcquire, tryOp, check_oga_result, hp, h2, h3, h4, failReturn, relAll, optRes, hA, hR]
  | none =>
  cases h5 : o.createStream with
  | some d =>
    cases b <;> simp [tryAcquire, tryOp, check_oga_result, hp, h2, h3, h4, h5, failReturn, relAll, optRes, hA, hR]
  | none =>
    cases b <;>
      simp [tryAcquire, tryOp, check_oga_result, hp, h2, h3, h4, h5,
        runLoop_acquires, runLoop_releases, set_result, relAll, optRes, hA, hR]

theorem addLoop_acquires (o : Oracle) (paths : Nat → Option String)
    (n i : Nat) (st : St) :
    acquiresOf (addImagePathsLoop o paths n i st).2.trace = acquiresOf st.trace := by
  induction n generalizing i st with
  | zero => simp [addImagePathsLoop]
  | succ n ih =>
    unfold addImagePathsLoop
    cases paths i with
    | none => simp
    | some s =>
      cases ha : o.addString i with
      | some d => simp [tryOp, check_oga_result, ha]
      | none => simp [tryOp, check_oga_result, ha, ih]

theorem addLoop_releases (o : Oracle) (paths : Nat → Option String)
    (n i : Nat) (st : St) :
    releasesOf (addImagePathsLoop o paths n i st).2.trace = releasesOf st.trace := by
  induction n generalizing i st with
  | zero => simp [addImagePathsLoop]
  | succ n ih =>
    unfold addImagePathsLoop
    cases paths i with
    | none => simp
    | some s =>
      cases ha : o.addString i with
      | some d => simp [tryOp, check_oga_result, ha]
      | none => simp [tryOp, check_oga_result, ha, ih]

theorem relacq_run_inference (o : Oracle) (mp p ip : Option String) (env : Env) :
    releasesOf (run_inference o mp p ip env).2.trace
      = (acquiresOf (run_inference o mp p ip env).2.trace).reverse := by
  unfold run_inference
  split
  · simp [retErr, set_error]
  · cases h1 : o.createModel with
    | some d => simp [tryAcquire, check_oga_result, h1, failReturn, relAll]
    | none =>
    cases h2 : o.createProcessor with
    | some d => simp [tryAcquire, check_oga_result, h1, h2, failReturn, relAll]
    | none =>
    cases h3 : o.createTokenizer with
    | some d => simp [tryAcquire, check_oga_result, h1, h2, h3, failReturn, relAll]
    | none =>
    cases hip : ip with
    | none =>
      simp only [tryAcquire, check_oga_result, h1, h2, h3, loadImageStep]
      exact relacq_mmTail o false _ (by simp [optRes]) (by simp)
    | some s =>
      by_cases hs : s = ""
      · simp only [tryAcquire, check_oga_result, h1, h2, h3, loadImageStep, hs, if_pos rfl]
        exact relacq_mmTail o false _ (by simp [optRes]) (by simp)
      · cases hli : o.loadImage with
        | some d =>
          simp [tryAcquire, check_oga_result, h1, h2, h3, loadImageStep, hs, hli,
            failReturn, relAll]
        | none =>
          simp only [tryAcquire, check_oga_result, h1, h2, h3, loadImageStep, hs, hli,
            if_neg hs]
          exact relacq_mmTail o true _ (by simp [optRes]) (by simp)

theorem relacq_run_inference_with_config (o : Oracle) (h : Nat)
    (p ip : Option String) (env : Env) :
    releasesOf (run_inference_with_config o h p ip env).2.trace
      = (acquiresOf (run_inference_with_config o h p ip env).2.trace).reverse := by
  unfold run_inference_with_config
  split
  · simp [retErr, set_error]
  · split
    · simp [retErr, set_error]
    · cases h1 : o.createModelFromConfig with
      | some d => simp [tryAcquire, check_oga_result, h1, failReturn, relAll]
      | none =>
      cases h2 : o.createProcessor with
      | some d => simp [tryAcquire, check_oga_result, h1, h2, failReturn, relAll]
      | none =>
      cases h3 : o.createTokenizer with
      | some d => simp [tryAcquire, check_oga_result, h1, h2, h3, failReturn, relAll]
      | none =>
      cases hip : ip with
      | none =>
        simp only [tryAcquire, check_oga_result, h1, h2, h3, loadImageStep]
        exact relacq_mmTail o false _ (by simp [optRes]) (by simp)
      | some s =>
        by_cases hs : s = ""
        · simp only [tryAcquire, check_oga_result, h1, h2, h3, loadImageStep, hs, if_pos rfl]
          exact relacq_mmTail o false _ (by simp [optRes]) (by simp)
        · cases hli : o.loadImage with
          | some d =>
            simp [tryAcquire, check_oga_result, h1, h2, h3, loadImageStep, hs, hli,
              failReturn, relAll]
          | none =>
            simp only [tryAcquire, check_oga_result, h1, h2, h3, loadImageStep, hs, hli,
              if_neg hs]
            exact relacq_mmTail o true _ (by simp [optRes]) (by simp)

theorem relacq_run_inference_multi (o : Oracle) (mp p : Option String)
    (paths : Option (Nat → Option String)) (count : Int) (env : Env) :
    releasesOf (run_inference_multi o mp p paths count env).2.trace
      = (acquiresOf (run_inference_multi o mp p paths count env).2.trace).reverse := by
  unfold run_inference_multi
  split
  · simp [retErr, set_error]
  · split
    · simp [retErr, set_error]
    · cases h1 : o.createModel with
      | some d => simp [tryAcquire, check_oga_result, h1, failReturn, relAll]
      | none =>
      cases h2 : o.createProcessor with
      | some d => simp [tryAcquire, check_oga_result, h1, h2, failReturn, relAll]
      | none =>
      cases h3 : o.createTokenizer with
      | some d => simp [tryAcquire, check_oga_result, h1, h2, h3, failReturn, relAll]
      | none =>
      by_cases hc : count > 0
      · cases h4 : o.createStringArrayFromStrings with
        | some d =>
          simp [tryAcquire, check_oga_result, h1, h2, h3, h4, hc, loadImagesMultiStep,
            failReturn, relAll]
        | none =>
          cases h5 : o.loadImages with
          | some d =>
            simp [tryAcquire, check_oga_result, h1, h2, h3, h4, h5, hc, loadImagesMultiStep,
              failReturn, relAll]
          | none =>
            simp only [tryAcquire, check_oga_result, h1, h2, h3, h4, h5, loadImagesMultiStep,
              if_pos hc]
            exact relacq_mmTailMulti o true _ (by simp [optRes]) (by simp)
      · simp only [tryAcquire, check_oga_result, h1, h2, h3, loadImagesMultiStep, if_neg hc]
        exact relacq_mmTailMulti o false _ (by simp [optRes]) (by simp)

theorem relacq_cfgLoadTail (o : Oracle) (paths : Nat → Option String)
    (count : Int) (st : St)
    (hA : acquiresOf st.trace = [.model, .processor, .tokenizer])
    (hR : releasesOf st.trace = []) :
    releasesOf (match loadImagesMultiCfgStep o paths count st with
      | .error r => r
      | .ok (b, st') => mmTailMultiCfg o b st').2.trace
      = (acquiresOf (match loadImagesMultiCfgStep o paths count st with
        | .error r => r
        | .ok (b, st') => mmTailMultiCfg o b st').2.trace).reverse := by
  unfold loadImagesMultiCfgStep
  by_cases hc : count > 0
  · cases hsa : o.createStringArray with
    | some d => simp [tryAcquire, check_oga_result, hsa, hc, failReturn, relAll, hA, hR]
    | none =>
      simp only [tryAcquire, check_oga_result, hsa, if_pos hc]
      have hacq := addLoop_acquires o paths count.toNat 0
        { env := st.env, trace := st.trace ++ [Event.acquire Resource.imagePathArray] }
      have hrel := addLoop_releases o paths count.toNat 0
        { env := st.env, trace := st.trace ++ [Event.acquire Resource.imagePathArray] }
      cases hAL : addImagePathsLoop o paths count.toNat 0
          { env := st.env, trace := st.trace ++ [Event.acquire Resource.imagePathArray] } with
      | mk res st2 =>
        rw [hAL] at hacq hrel
        cases res with
        | failNull => simp [hAL, retErr, set_error, relAll, hacq, hrel, hA, hR]
        | failAdd => simp [hAL, failReturn, set_error, relAll, hacq, hrel, hA, hR]
        | okDone =>
          cases hli : o.loadImages with
          | some d =>
            simp [hAL, tryAcquire, check_oga_result, hli, failReturn, relAll, hacq, hrel, hA, hR]
          | none =>
            simp only [Prod.snd] at hacq hrel
            simp [tryAcquire, check_oga_result, hsa, hli, hAL]
            apply relacq_mmTailMultiCfg o true
            · simp [optRes, hacq, hA]
            · simp [hrel, hR]
  · simp only [if_neg hc]
    exact relacq_mmTailMultiCfg o false st (by simp [optRes, hA]) hR

theorem relacq_run_inference_multi_with_config (o : Oracle) (h : Nat)
    (p : Option String) (paths : Option (Nat → Option String)) (count : Int)
    (env : Env) :
    releasesOf (run_inference_multi_with_config o h p paths count env).2.trace
      = (acquiresOf (run_inference_multi_with_config o h p paths count env).2.trace).reverse := by
  unfold run_inference_multi_with_config
  split
  · simp [retErr, set_error]
  · split
    · simp [retErr, set_error]
    · split
      · simp [retErr, set_error]
      · cases h1 : o.createModelFromConfig with
        | some d => simp [tryAcquire, check_oga_result, h1, failReturn, relAll]
        | none =>
        cases h2 : o.createProcessor with
        | some d => simp [tryAcquire, check_oga_result, h1, h2, failReturn, relAll]
        | none =>
        cases h3 : o.createTokenizer with
        | some d => simp [tryAcquire, check_oga_result, h1, h2, h3, failReturn, relAll]
        | none =>
          simp only [tryAcquire, check_oga_result, h1, h2, h3]
          exact relacq_cfgLoadTail o _ count _ (by simp) (by simp)

/-- Claim C1 (invariants): for every inference call
(`run_text_inference`, `run_inference`, `run_inference_multi`,
`run_inference_with_config`, `run_inference_multi_with_config`) and
every exit path — normal completion or failure at any acquisition
step, i.e. for every oracle — the sequence of released resources is
exactly the reverse of the sequence of successfully acquired
resources.  Hence each acquired resource is released exactly once, in
reverse acquisition order, never-acquired resources (e.g. the image
batch when no images were requested) are skipped, and no resource
whose acquisition step was not reached is ever released. -/
theorem claim_C1 :
    (∀ (o : Oracle) (mp p : Option String) (len : Int) (env : Env),
      releasesOf (run_text_inference o mp p len env).2.trace
        = (acquiresOf (run_text_inference o mp p len env).2.trace).reverse)
  ∧ (∀ (o : Oracle) (mp p ip : Option String) (env : Env),
      releasesOf (run_inference o mp p ip env).2.trace
        = (acquiresOf (run_inference o mp p ip env).2.trace).reverse)
  ∧ (∀ (o : Oracle) (mp p : Option String) (paths : Option (Nat → Option String))
      (count : Int) (env : Env),
      releasesOf (run_inference_multi o mp p paths count env).2.trace
        = (acquiresOf (run_inference_multi o mp p paths count env).2.trace).reverse)
  ∧ (∀ (o : Oracle) (h : Nat) (p ip : Option String) (env : Env),
      releasesOf (run_inference_with_config o h p ip env).2.trace
        = (acquiresOf (run_inference_with_config o h p ip env).2.trace).reverse)
  ∧ (∀ (o : Oracle) (h : Nat) (p : Option String)
      (paths : Option (Nat → Option String)) (count : Int) (env : Env),
      releasesOf (run_inference_multi_with_config o h p paths count env).2.trace
        = (acquiresOf (run_inference_multi_with_config o h p paths count env).2.trace).reverse) :=
  ⟨relacq_run_text_inference, relacq_run_inference, relacq_run_inference_multi,
   relacq_run_inference_with_config, relacq_run_inference_multi_with_config⟩

/-- Concatenation of a fragment list. -/
def joinFrags (l : List String) : String :=
  l.foldr (fun a b => a ++ b) ""

@[simp] theorem joinFrags_nil : joinFrags [] = "" := rfl

@[simp] theorem joinFrags_cons (f : String) (t : List String) :
    joinFrags (f :: t) = f ++ joinFrags t := rfl

theorem runLoop_fst (l : List IterOutcome) (st : St) (acc : String) :
    (runLoop l st acc).1 = acc ++ joinFrags (loopFrags l) := by
  induction l generalizing st acc with
  | nil => simp [runLoop, loopFrags]
  | cons it rest ih =>
    cases it <;>
      simp [runLoop, check_oga_result, loopFrags, isBreakIter, fragOf, ih,
        String.append_assoc]

theorem runLoop_env_ok (l : List IterOutcome) (st : St) (acc : String)
    (h : itersOk l = true) :
    (runLoop l st acc).2.env = st.env := by
  induction l generalizing st acc with
  | nil => simp [runLoop]
  | cons it rest ih =>
    simp only [itersOk, List.all_cons, Bool.and_eq_true] at h
    cases it <;> simp_all [runLoop, iterOk, itersOk, check_oga_result]

theorem runLoop_genFail (pre post : List IterOutcome) (d : String)
    (st : St) (acc : String)
    (hpre : ∀ it ∈ pre, isBreakIter it = false) :
    (runLoop (pre ++ IterOutcome.genFail d :: post) st acc).1
        = acc ++ joinFrags (pre.filterMap fragOf)
    ∧ (runLoop (pre ++ IterOutcome.genFail d :: post) st acc).2.env.errorBuf
        = "Generate next token failed: " ++ d := by
  induction pre generalizing st acc with
  | nil => simp [runLoop, check_oga_result]
  | cons it rest ih =>
    have hit := hpre it (by simp)
    have hrest : ∀ x ∈ rest, isBreakIter x = false := fun x hx => hpre x (by simp [hx])
    cases it <;> simp_all [runLoop, isBreakIter, fragOf, check_oga_result, String.append_assoc]

theorem genfail_run_text_inference (o : Oracle) (mps ps : String) (len : Int) (env : Env)
    (pre post : List IterOutcome) (d : String)
    (hM : o.createModel = none) (hT : o.createTokenizer = none)
    (hS : o.createSequences = none) (hE : o.tokenizerEncode = none)
    (hP : o.createParams = none) (hG : o.createGenerator = none)
    (hA : o.appendTokenSequences = none) (hStr : o.createStream = none)
    (hIt : o.iters = pre ++ IterOutcome.genFail d :: post)
    (hpre : ∀ it ∈ pre, isBreakIter it = false) :
    (run_text_inference o (some mps) (some ps) len env).1
        = joinFrags (pre.filterMap fragOf)
    ∧ (run_text_inference o (some mps) (some ps) len env).2.env.resultBuf
        = joinFrags (pre.filterMap fragOf)
    ∧ get_last_error (run_text_inference o (some mps) (some ps) len env).2.env
        = "Generate next token failed: " ++ d := by
  unfold run_text_inference get_last_error
  simp [tryAcquire, tryOp, check_oga_result, hM, hT, hS, hE, hP, hG, hA, hStr, hIt, set_result]
  refine ⟨?_, ?_⟩
  · rw [(runLoop_genFail pre post d _ "" hpre).1]
    simp
  · rw [(runLoop_genFail pre post d _ "" hpre).2]

/-- An oracle whose every engine call succeeds and whose generation
loop finishes immediately. -/
def allOkOracle : Oracle where
  createModel := none
  createModelFromConfig := none
  createProcessor := none
  createTokenizer := none
  createSequences := none
  tokenizerEncode := none
  createStringArray := none
  createStringArrayFromStrings := none
  addString := fun _ => none
  loadImage := none
  loadImages := none
  processImages := none
  createParams := none
  setSearchNumber := none
  createGenerator := none
  appendTokenSequences := none
  setInputs := none
  createStream := none
  createConfig := none
  clearProviders := none
  appendProvider := none
  setProviderOption := none
  configAddr := 1
  iters := []

theorem errbuf_mmTail (o : Oracle) (b : Bool) (st : St)
    (hp : o.processImages = none) (h2 : o.createParams = none)
    (h3 : o.createGenerator = none) (h4 : o.setInputs = none)
    (h5 : o.createStream = none) (hIt : itersOk o.iters = true) :
    (mmTail o b st).2.env.errorBuf = st.env.errorBuf := by
  unfold mmTail
  simp [tryAcquire, tryOp, check_oga_result, hp, h2, h3, h4, h5, set_result]
  rw [runLoop_env_ok _ _ _ hIt]

theorem errbuf_mmTailMulti (o : Oracle) (b : Bool) (st : St)
    (hp : o.processImages = none) (h2 : o.createParams = none)
    (h3 : o.createGenerator = none) (h4 : o.setInputs = none)
    (h5 : o.createStream = none) (hIt : itersOk o.iters = true) :
    (mmTailMulti o b st).2.env.errorBuf = st.env.errorBuf := by
  unfold mmTailMulti
  simp [tryAcquire, tryOp, check_oga_result, hp, h2, h3, h4, h5, set_result]
  rw [runLoop_env_ok _ _ _ hIt]

theorem errbuf_mmTailMultiCfg (o : Oracle) (b : Bool) (st : St)
    (hp : o.processImages = none) (h2 : o.createParams = none)
    (h3 : o.createGenerator = none) (h4 : o.setInputs = none)
    (h5 : o.createStream = none) (hIt : itersOk o.iters = true) :
    (mmTailMultiCfg o b st).2.env.errorBuf = st.env.errorBuf := by
  unfold mmTailMultiCfg
  simp [tryAcquire, tryOp, check_oga_result, hp, h2, h3, h4, h5, set_result]
  rw [runLoop_env_ok _ _ _ hIt]

theorem errbuf_run_text_inference (o : Oracle) (mps ps : String)
    (len : Int) (env : Env)
    (h1 : o.createModel = none) (h2 : o.createTokenizer = none)
    (h3 : o.createSequences = none) (h4 : o.tokenizerEncode = none)
    (h5 : o.createParams = none) (h6 : o.createGenerator = none)
    (h7 : o.appendTokenSequences = none) (h8 : o.createStream = none)
    (hIt : itersOk o.iters = true) :
    (run_text_inference o (some mps) (some ps) len env).2.env.errorBuf
      = env.errorBuf := by
  unfold run_text_inference
  simp [tryAcquire, tryOp, check_oga_result, h1, h2, h3, h4, h5, h6, h7, h8, set_result]
  rw [runLoop_env_ok _ _ _ hIt]
  split <;> simp

theorem errbuf_run_inference (o : Oracle) (mps ps : String)
    (ip : Option String) (env : Env)
    (h1 : o.createModel = none) (h2 : o.createProcessor = none)
    (h3 : o.createTokenizer = none)
    (hli : nonEmptyStr ip = true → o.loadImage = none)
    (hp : o.processImages = none) (hpar : o.createParams = none)
    (hg : o.createGenerator = none) (hsi : o.setInputs = none)
    (hstr : o.createStream = none) (hIt : itersOk o.iters = true) :
    (run_inference o (some mps) (some ps) ip env).2.env.errorBuf
      = env.errorBuf := by
  unfold run_inference
  cases hip : ip with
  | none =>
    simp only [tryAcquire, check_oga_result, h1, h2, h3, loadImageStep]
    exact errbuf_mmTail o false _ hp hpar hg hsi hstr hIt
  | some s =>
    by_cases hs : s = ""
    · simp only [tryAcquire, check_oga_result, h1, h2, h3, loadImageStep, hs, if_pos rfl]
      exact errbuf_mmTail o false _ hp hpar hg hsi hstr hIt
    · have hli' : o.loadImage = none := hli (by simp [nonEmptyStr, hip, hs])
      simp only [tryAcquire, check_oga_result, h1, h2, h3, loadImageStep, hli', if_neg hs]
      exact errbuf_mmTail o true _ hp hpar hg hsi hstr hIt

theorem errbuf_run_inference_multi (o : Oracle) (mps ps : String)
    (paths : Nat → Option String) (count : Int) (env : Env)
    (h1 : o.createModel = none) (h2 : o.createProcessor = none)
    (h3 : o.createTokenizer = none)
    (hsa : count > 0 → o.createStringArrayFromStrings = none)
    (hli : count > 0 → o.loadImages = none)
    (hp : o.processImages = none) (hpar : o.createParams = none)
    (hg : o.createGenerator = none) (hsi : o.setInputs = none)
    (hstr : o.createStream = none) (hIt : itersOk o.iters = true) :
    (run_inference_multi o (some mps) (some ps) (some paths) count env).2.env.errorBuf
      = env.errorBuf := by
  unfold run_inference_multi
  by_cases hc : count > 0
  · simp only [tryAcquire, check_oga_result, h1, h2, h3, loadImagesMultiStep,
      hsa hc, hli hc, if_pos hc, Option.isNone_some, and_false, if_false, Bool.false_eq_true]
    exact errbuf_mmTailMulti o true _ hp hpar hg hsi hstr hIt
  · simp only [tryAcquire, check_oga_result, h1, h2, h3, loadImagesMultiStep, if_neg hc,
      Option.isNone_some, and_false, if_false, Bool.false_eq_true]
    exact errbuf_mmTailMulti o false _ hp hpar hg hsi hstr hIt

theorem addLoop_ok (o : Oracle) (paths : Nat → Option String) (n i : Nat) (st : St)
    (h : ∀ j, j < n → (paths (i + j)).isSome = true ∧ o.addString (i + j) = none) :
    (addImagePathsLoop o paths n i st).1 = AddLoopResult.okDone
    ∧ (addImagePathsLoop o paths n i st).2.env = st.env := by
  induction n generalizing i st with
  | zero => simp [addImagePathsLoop]
  | succ n ih =>
    obtain ⟨hps, hadd⟩ := h 0 (Nat.succ_pos n)
    rw [Nat.add_zero] at hps hadd
    rcases hpi : paths i with _ | s
    · rw [hpi] at hps
      simp at hps
    · unfold addImagePathsLoop
      simp only [hpi, tryOp, check_oga_result, hadd, Bool.false_eq_true, if_false]
      exact ih (i + 1) _ (fun j hj => by
        have hj' := h (j + 1) (Nat.succ_lt_succ hj)
        have he : i + (j + 1) = i + 1 + j := by omega
        rwa [he] at hj')

theorem errbuf_run_inference_with_config (o : Oracle) (hdl : Nat) (ps : String)
    (ip : Option String) (env : Env) (hh : ¬hdl = 0)
    (h1 : o.createModelFromConfig = none) (h2 : o.createProcessor = none)
    (h3 : o.createTokenizer = none)
    (hli : nonEmptyStr ip = true → o.loadImage = none)
    (hp : o.processImages = none) (hpar : o.createParams = none)
    (hg : o.createGenerator = none) (hsi : o.setInputs = none)
    (hstr : o.createStream = none) (hIt : itersOk o.iters = true) :
    (run_inference_with_config o hdl (some ps) ip env).2.env.errorBuf
      = env.errorBuf := by
  unfold run_inference_with_config
  rw [if_neg hh]
  cases hip : ip with
  | none =>
    simp only [tryAcquire, check_oga_result, h1, h2, h3, loadImageStep]
    exact errbuf_mmTail o false _ hp hpar hg hsi hstr hIt
  | some s =>
    by_cases hs : s = ""
    · simp only [tryAcquire, check_oga_result, h1, h2, h3, loadImageStep, hs, if_pos rfl]
      exact errbuf_mmTail o false _ hp hpar hg hsi hstr hIt
    · have hli' : o.loadImage = none := hli (by simp [nonEmptyStr, hip, hs])
      simp only [tryAcquire, check_oga_result, h1, h2, h3, loadImageStep, hli', if_neg hs]
      exact errbuf_mmTail o true _ hp hpar hg hsi hstr hIt

theorem errbuf_cfgLoadTail (o : Oracle) (paths : Nat → Option String)
    (count : Int) (st : St)
    (hsa : count > 0 → o.createStringArray = none)
    (hadds : count > 0 → ∀ j, j < count.toNat →
      (paths j).isSome = true ∧ o.addString j = none)
    (hli : count > 0 → o.loadImages = none)
    (hp : o.processImages = none) (hpar : o.createParams = none)
    (hg : o.createGenerator = none) (hsi : o.setInputs = none)
    (hstr : o.createStream = none) (hIt : itersOk o.iters = true) :
    (match loadImagesMultiCfgStep o paths count st with
      | .error r => r
      | .ok (b, st') => mmTailMultiCfg o b st').2.env.errorBuf
      = st.env.errorBuf := by
  unfold loadImagesMultiCfgStep
  by_cases hc : count > 0
  · simp only [if_pos hc, tryAcquire, check_oga_result, hsa hc]
    have key := addLoop_ok o paths count.toNat 0
      { env := st.env, trace := st.trace ++ [Event.acquire Resource.imagePathArray] }
      (fun j hj => by simpa using hadds hc j hj)
    cases hAL : addImagePathsLoop o paths count.toNat 0
        { env := st.env, trace := st.trace ++ [Event.acquire Resource.imagePathArray] } with
    | mk res st2 =>
      rw [hAL] at key
      obtain ⟨hres, henv⟩ := key
      simp only at hres henv
      subst hres
      simp only [hAL, tryAcquire, check_oga_result, hli hc, Bool.false_eq_true, if_false]
      rw [errbuf_mmTailMultiCfg o true _ hp hpar hg hsi hstr hIt]
      simp [henv]
  · simp only [if_neg hc]
    exact errbuf_mmTailMultiCfg o false st hp hpar hg hsi hstr hIt

theorem errbuf_run_inference_multi_with_config (o : Oracle) (hdl : Nat)
    (ps : String) (paths : Nat → Option String) (count : Int) (env : Env)
    (hh : ¬hdl = 0)
    (h1 : o.createModelFromConfig = none) (h2 : o.createProcessor = none)
    (h3 : o.createTokenizer = none)
    (hsa : count > 0 → o.createStringArray = none)
    (hadds : count > 0 → ∀ j, j < count.toNat →
      (paths j).isSome = true ∧ o.addString j = none)
    (hli : count > 0 → o.loadImages = none)
    (hp : o.processImages = none) (hpar : o.createParams = none)
    (hg : o.createGenerator = none) (hsi : o.setInputs = none)
    (hstr : o.createStream = none) (hIt : itersOk o.iters = true) :
    (run_inference_multi_with_config o hdl (some ps) (some paths) count env).2.env.errorBuf
      = env.errorBuf := by
  unfold run_inference_multi_with_config
  rw [if_neg hh]
  simp only [tryAcquire, check_oga_result, h1, h2, h3, Option.isNone_some, and_false,
    Bool.false_eq_true, if_false]
  have := errbuf_cfgLoadTail o (fun i => ((some paths).getD (fun _ => none)) i) count
    { env := env,
      trace := [] ++ [Event.acquire Resource.model] ++ [Event.acquire Resource.processor]
        ++ [Event.acquire Resource.tokenizer] }
    hsa (by simpa using hadds) hli hp hpar hg hsi hstr hIt
  simpa using this

/-- A call is fully successful when its arguments pass validation and
every engine call it performs succeeds (every loop iteration decodes
or yields a NULL fragment; no failure of any kind occurs inside the
call). -/
def fullySuccess : ApiCall → Bool
  | .healthCheck o mp => nonEmptyStr mp && o.createModel.isNone && o.createTokenizer.isNone
  | .textInference o mp p _ => mp.isSome && p.isSome && o.createModel.isNone
      && o.createTokenizer.isNone && o.createSequences.isNone && o.tokenizerEncode.isNone
      && o.createParams.isNone && o.createGenerator.isNone && o.appendTokenSequences.isNone
      && o.createStream.isNone && itersOk o.iters
  | .inference o mp p ip => mp.isSome && p.isSome && o.createModel.isNone
      && o.createProcessor.isNone && o.createTokenizer.isNone
      && (!nonEmptyStr ip || o.loadImage.isNone) && o.processImages.isNone
      && o.createParams.isNone && o.createGenerator.isNone && o.setInputs.isNone
      && o.createStream.isNone && itersOk o.iters
  | .inferenceMulti o mp p paths count => mp.isSome && p.isSome && paths.isSome
      && o.createModel.isNone && o.createProcessor.isNone && o.createTokenizer.isNone
      && (!decide (count > 0) || (o.createStringArrayFromStrings.isNone && o.loadImages.isNone))
      && o.processImages.isNone && o.createParams.isNone && o.createGenerator.isNone
      && o.setInputs.isNone && o.createStream.isNone && itersOk o.iters
  | .inferenceWithConfig o hdl p ip => !decide (hdl = 0) && p.isSome
      && o.createModelFromConfig.isNone && o.createProcessor.isNone && o.createTokenizer.isNone
      && (!nonEmptyStr ip || o.loadImage.isNone) && o.processImages.isNone
      && o.createParams.isNone && o.createGenerator.isNone && o.setInputs.isNone
      && o.createStream.isNone && itersOk o.iters
  | .inferenceMultiWithConfig o hdl p paths count => !decide (hdl = 0) && p.isSome
      && paths.isSome && o.createModelFromConfig.isNone && o.createProcessor.isNone
      && o.createTokenizer.isNone
      && (!decide (count > 0) || (o.createStringArray.isNone && o.loadImages.isNone
          && (List.range count.toNat).all (fun j =>
            (paths.getD (fun _ => none) j).isSome && (o.addString j).isNone)))
      && o.processImages.isNone && o.createParams.isNone && o.createGenerator.isNone
      && o.setInputs.isNone && o.createStream.isNone && itersOk o.iters
  | .createConfigCall o mp => nonEmptyStr mp && o.createConfig.isNone
  | .destroyConfigCall _ => true
  | .clearProvidersCall o hdl => !decide (hdl = 0) && o.clearProviders.isNone
  | .appendProviderCall o hdl name => !decide (hdl = 0) && nonEmptyStr name
      && o.appendProvider.isNone
  | .setProviderOptionCall o hdl pr k v => !decide (hdl = 0) && pr.isSome && k.isSome
      && v.isSome && o.setProviderOption.isNone
  | .shutdownCall => true
  | .getVersionCall => true
  | .getLastErrorCall => true

theorem stepSys_errbuf (s : Sys) (c : ApiCall) (h : fullySuccess c = true) :
    (stepSys s c).1.env.errorBuf = s.env.errorBuf := by
  cases c with
  | healthCheck o mp =>
    simp only [fullySuccess, Bool.and_eq_true, Option.isNone_iff_eq_none] at h
    obtain ⟨⟨hne, hm⟩, ht⟩ := h
    rcases mp with _ | mps
    · simp [nonEmptyStr] at hne
    · simp only [stepSys]
      unfold check_native_health
      have hmp : ¬mps = "" := by
        by_contra he
        subst he
        simp [nonEmptyStr] at hne
      simp [tryAcquire, check_oga_result, hm, ht, hmp]
  | textInference o mp p len =>
    simp only [fullySuccess, Bool.and_eq_true, Option.isNone_iff_eq_none,
      Option.isSome_iff_exists] at h
    obtain ⟨h, hIt⟩ := h
    obtain ⟨h, h8⟩ := h
    obtain ⟨h, h7⟩ := h
    obtain ⟨h, h6⟩ := h
    obtain ⟨h, h5⟩ := h
    obtain ⟨h, h4⟩ := h
    obtain ⟨h, h3⟩ := h
    obtain ⟨h, h2⟩ := h
    obtain ⟨h, h1⟩ := h
    obtain ⟨⟨mps, rfl⟩, ⟨ps, rfl⟩⟩ := h
    simp only [stepSys]
    exact errbuf_run_text_inference o mps ps len s.env h1 h2 h3 h4 h5 h6 h7 h8 hIt
  | inference o mp p ip =>
    simp only [fullySuccess, Bool.and_eq_true, Option.isNone_iff_eq_none,
      Option.isSome_iff_exists, Bool.or_eq_true, Bool.not_eq_true'] at h
    obtain ⟨h, hIt⟩ := h
    obtain ⟨h, hstr⟩ := h
    obtain ⟨h, hsi⟩ := h
    obtain ⟨h, hg⟩ := h
    obtain ⟨h, hpar⟩ := h
    obtain ⟨h, hp⟩ := h
    obtain ⟨h, hio⟩ := h
    obtain ⟨h, h3⟩ := h
    obtain ⟨h, h2⟩ := h
    obtain ⟨h, h1⟩ := h
    obtain ⟨⟨mps, rfl⟩, ⟨ps, rfl⟩⟩ := h
    simp only [stepSys]
    refine errbuf_run_inference o mps ps ip s.env h1 h2 h3 ?_ hp hpar hg hsi hstr hIt
    intro hni
    rcases hio with hio | hio
    · rw [hni] at hio
      exact absurd hio (by simp)
    · exact hio
  | inferenceMulti o mp p paths count =>
    simp only [fullySuccess, Bool.and_eq_true, Option.isNone_iff_eq_none,
      Option.isSome_iff_exists, Bool.or_eq_true, Bool.not_eq_true',
      decide_eq_false_iff_not] at h
    obtain ⟨h, hIt⟩ := h
    obtain ⟨h, hstr⟩ := h
    obtain ⟨h, hsi⟩ := h
    obtain ⟨h, hg⟩ := h
    obtain ⟨h, hpar⟩ := h
    obtain ⟨h, hp⟩ := h
    obtain ⟨h, him⟩ := h
    obtain ⟨h, h3⟩ := h
    obtain ⟨h, h2⟩ := h
    obtain ⟨h, h1⟩ := h
    obtain ⟨h, hpf⟩ := h
    obtain ⟨⟨mps, rfl⟩, ⟨ps, rfl⟩⟩ := h
    obtain ⟨pf, rfl⟩ := hpf
    simp only [stepSys]
    refine errbuf_run_inference_multi o mps ps pf count s.env h1 h2 h3 ?_ ?_
      hp hpar hg hsi hstr hIt <;> intro hc
    · rcases him with him | him
      · exact absurd hc him
      · exact him.1
    · rcases him with him | him
      · exact absurd hc him
      · exact him.2
  | inferenceWithConfig o hdl p ip =>
    simp only [fullySuccess, Bool.and_eq_true, Option.isNone_iff_eq_none,
      Option.isSome_iff_exists, Bool.or_eq_true, Bool.not_eq_true',
      decide_eq_false_iff_not] at h
    obtain ⟨h, hIt⟩ := h
    obtain ⟨h, hstr⟩ := h
    obtain ⟨h, hsi⟩ := h
    obtain ⟨h, hg⟩ := h
    obtain ⟨h, hpar⟩ := h
    obtain ⟨h, hp⟩ := h
    obtain ⟨h, hio⟩ := h
    obtain ⟨h, h3⟩ := h
    obtain ⟨h, h2⟩ := h
    obtain ⟨h, h1⟩ := h
    obtain ⟨hh, ⟨ps, rfl⟩⟩ := h
    simp only [stepSys]
    refine errbuf_run_inference_with_config o hdl ps ip s.env hh h1 h2 h3 ?_
      hp hpar hg hsi hstr hIt
    intro hni
    rcases hio with hio | hio
    · rw [hni] at hio
      exact absurd hio (by simp)
    · exact hio
  | inferenceMultiWithConfig o hdl p paths count =>
    simp only [fullySuccess, Bool.and_eq_true, Option.isNone_iff_eq_none,
      Option.isSome_iff_exists, Bool.or_eq_true, Bool.not_eq_true',
      decide_eq_false_iff_not] at h
    obtain ⟨h, hIt⟩ := h
    obtain ⟨h, hstr⟩ := h
    obtain ⟨h, hsi⟩ := h
    obtain ⟨h, hg⟩ := h
    obtain ⟨h, hpar⟩ := h
    obtain ⟨h, hp⟩ := h
    obtain ⟨h, him⟩ := h
    obtain ⟨h, h3⟩ := h
    obtain ⟨h, h2⟩ := h
    obtain ⟨h, h1⟩ := h
    obtain ⟨h, hpf⟩ := h
    obtain ⟨hh, ⟨ps, rfl⟩⟩ := h
    obtain ⟨pf, rfl⟩ := hpf
    simp only [stepSys]
    refine errbuf_run_inference_multi_with_config o hdl ps pf count s.env hh h1 h2 h3
      ?_ ?_ ?_ hp hpar hg hsi hstr hIt <;> intro hc
    · rcases him with him | him
      · exact absurd hc him
      · exact him.1.1
    · rcases him with him | him
      · exact absurd hc him
      · intro j hj
        have hall := him.2
        rw [List.all_eq_true] at hall
        have hj2 := hall j (List.mem_range.mpr hj)
        simp only [Bool.and_eq_true, Option.isNone_iff_eq_none] at hj2
        simpa using hj2
    · rcases him with him | him
      · exact absurd hc him
      · exact him.1.2
  | createConfigCall o mp =>
    simp only [fullySuccess, Bool.and_eq_true, Option.isNone_iff_eq_none] at h
    obtain ⟨hne, hcc⟩ := h
    rcases mp with _ | mps
    · simp [nonEmptyStr] at hne
    · have hmp : ¬mps = "" := by
        by_contra he
        subst he
        simp [nonEmptyStr] at hne
      simp only [stepSys]
      unfold create_config
      simp [tryAcquire, check_oga_result, hcc, hmp]
  | destroyConfigCall hdl => rfl
  | clearProvidersCall o hdl =>
    simp only [fullySuccess, Bool.and_eq_true, Option.isNone_iff_eq_none,
      Bool.not_eq_true', decide_eq_false_iff_not] at h
    obtain ⟨hh, hcl⟩ := h
    simp only [stepSys]
    unfold config_clear_providers
    simp [tryOp, check_oga_result, hcl, hh]
  | appendProviderCall o hdl name =>
    simp only [fullySuccess, Bool.and_eq_true, Option.isNone_iff_eq_none,
      Bool.not_eq_true', decide_eq_false_iff_not] at h
    obtain ⟨⟨hh, hne⟩, hap⟩ := h
    rcases name with _ | nm
    · simp [nonEmptyStr] at hne
    · have hnm : ¬nm = "" := by
        by_contra he
        subst he
        simp [nonEmptyStr] at hne
      simp only [stepSys]
      unfold config_append_provider
      simp [tryOp, check_oga_result, hap, hh, hnm]
  | setProviderOptionCall o hdl pr k v =>
    simp only [fullySuccess, Bool.and_eq_true, Option.isNone_iff_eq_none,
      Option.isSome_iff_exists, Bool.not_eq_true', decide_eq_false_iff_not] at h
    obtain ⟨h, hso⟩ := h
    obtain ⟨h, hv⟩ := h
    obtain ⟨h, hk⟩ := h
    obtain ⟨hh, hpr⟩ := h
    obtain ⟨prs, rfl⟩ := hpr
    obtain ⟨ks, rfl⟩ := hk
    obtain ⟨vs, rfl⟩ := hv
    simp only [stepSys]
    unfold config_set_provider_option
    simp [tryOp, check_oga_result, hso, hh]
  | shutdownCall => simp only [stepSys]
  | getVersionCall => rfl
  | getLastErrorCall => rfl

/-- Claim C9 (frame_effect): a fully successful call never modifies the
thread-local error buffer, so after any successful call
`get_last_error` (which simply reads the buffer) still returns the
message written by the most recent failing call on that thread; after
a history of only fully successful calls from process start it returns
the empty string. -/
theorem claim_C9 :
    (∀ (s : Sys) (c : ApiCall), fullySuccess c = true →
      (stepSys s c).1.env.errorBuf = s.env.errorBuf)
  ∧ (∀ calls : List ApiCall, (∀ c ∈ calls, fullySuccess c = true) →
      get_last_error (runCalls initSys calls).1.env = "")
  ∧ (∀ env : Env, get_last_error env = env.errorBuf) := by
  refine ⟨stepSys_errbuf, ?_, fun env => rfl⟩
  intro calls h
  have key : ∀ s : Sys, (∀ c ∈ calls, fullySuccess c = true) →
      (runCalls s calls).1.env.errorBuf = s.env.errorBuf := by
    clear h
    induction calls with
    | nil => intro s _; rfl
    | cons c rest ih =>
      intro s hc
      simp only [runCalls]
      rw [ih _ (fun x hx => hc x (by simp [hx])), stepSys_errbuf s c (hc c (by simp))]
  rw [get_last_error, key initSys h]
  rfl

/-- Witness for C9: a history of one fully successful text-inference
call followed by a shutdown leaves the error buffer empty. -/
theorem claim_C9_witness :
    get_last_error (runCalls initSys
      [ApiCall.textInference allOkOracle (some "m") (some "p") 5,
       ApiCall.shutdownCall]).1.env = "" :=
  claim_C9.2.1 _ (by
    intro c hc
    simp only [List.mem_cons, List.mem_singleton, List.not_mem_nil, or_false] at hc
    rcases hc with rfl | rfl <;> rfl)

theorem stepSys_initialized (s : Sys) (c : ApiCall)
    (h : s.initialized = false) : (stepSys s c).1.initialized = false := by
  cases c <;> simp [stepSys, shutdown_onnx_genai, h]

/-- Claim C10 (invariants): `g_initialized` starts `false` and no
exported operation ever sets it to `true`; consequently, after any
sequence of exported calls, `shutdown_onnx_genai` never invokes the
engine's `OgaShutdown` (the shutdown step produces no engine event)
and leaves the observable state unchanged, so repeated shutdown calls
are idempotent no-ops. -/
theorem claim_C10 :
    g_initialized_init = false
  ∧ (∀ calls : List ApiCall, (runCalls initSys calls).1.initialized = false)
  ∧ (∀ calls : List ApiCall,
      stepSys (runCalls initSys calls).1 ApiCall.shutdownCall
        = ((runCalls initSys calls).1, []))
  ∧ shutdown_onnx_genai false = (false, []) := by
  have inv : ∀ (calls : List ApiCall) (s : Sys), s.initialized = false →
      (runCalls s calls).1.initialized = false := by
    intro calls
    induction calls with
    | nil => intro s h; exact h
    | cons c rest ih =>
      intro s h
      simp only [runCalls]
      exact ih _ (stepSys_initialized s c h)
  refine ⟨rfl, fun calls => inv calls initSys rfl, fun calls => ?_, rfl⟩
  have h := inv calls initSys rfl
  simp [stepSys, shutdown_onnx_genai, h]
  rw [← h]

/-- Claim C6 (functional_correctness): `check_native_health` returns
exactly `1` when model and tokenizer both build, `-1` on a NULL or
empty model path, `-2` when model creation fails, `-3` when tokenizer
creation fails (releasing the already-built model in that case), and
nothing else. -/
theorem claim_C6 (o : Oracle) (mp : Option String) (env : Env) :
    ((check_native_health o mp env).1 = 1 ∨ (check_native_health o mp env).1 = -1
      ∨ (check_native_health o mp env).1 = -2 ∨ (check_native_health o mp env).1 = -3)
  ∧ ((check_native_health o mp env).1 = -1 ↔ mp = none ∨ mp = some "")
  ∧ ((check_native_health o mp env).1 = -2 ↔
      (∃ s, mp = some s ∧ s ≠ "") ∧ o.createModel ≠ none)
  ∧ ((check_native_health o mp env).1 = -3 ↔
      (∃ s, mp = some s ∧ s ≠ "") ∧ o.createModel = none ∧ o.createTokenizer ≠ none)
  ∧ ((check_native_health o mp env).1 = 1 ↔
      (∃ s, mp = some s ∧ s ≠ "") ∧ o.createModel = none ∧ o.createTokenizer = none)
  ∧ ((check_native_health o mp env).1 = -3 →
      (check_native_health o mp env).2.trace
        = [Event.acquire Resource.model, Event.callErr EngineFn.createTokenizer,
           Event.release Resource.model]) := by
  unfold check_native_health
  rcases mp with _ | s
  · simp
  · by_cases hs : s = ""
    · subst hs
      simp
    · cases h1 : o.createModel with
      | some d => simp [tryAcquire, check_oga_result, h1, hs]
      | none =>
        cases h2 : o.createTokenizer with
        | some d => simp [tryAcquire, check_oga_result, h1, h2, hs, relAll]
        | none => simp [tryAcquire, check_oga_result, h1, h2, hs, relAll]

/-- Witness for C6 at concrete inputs: a failing tokenizer build yields
`-3` with the model released. -/
theorem claim_C6_witness :
    (check_native_health { allOkOracle with createTokenizer := some "bad" }
        (some "m") { resultBuf := "", errorBuf := "" }).1 = -3
    ∧ (check_native_health { allOkOracle with createTokenizer := some "bad" }
        (some "m") { resultBuf := "", errorBuf := "" }).2.trace
      = [Event.acquire Resource.model, Event.callErr EngineFn.createTokenizer,
         Event.release Resource.model] := by
  have h := claim_C6 { allOkOracle with createTokenizer := some "bad" }
    (some "m") { resultBuf := "", errorBuf := "" }
  refine ⟨?_, ?_⟩
  · exact (h.2.2.2.1).mpr ⟨⟨"m", rfl, by decide⟩, rfl, by simp⟩
  · exact h.2.2.2.2.2 ((h.2.2.2.1).mpr ⟨⟨"m", rfl, by decide⟩, rfl, by simp⟩)

/-- Claim C5 (functional_correctness): `create_config` returns the
(nonzero) address of the config object whenever the engine creates it,
and `0` on every failure — NULL/empty path or engine-reported failure —
with the error channel written; `0` is never returned for a live
object.  The hypothesis `o.configAddr ≠ 0` is the C guarantee that a
created object has a non-null address. -/
theorem claim_C5 (o : Oracle) (mp : Option String) (env : Env)
    (haddr : o.configAddr ≠ 0) :
    ((mp = none ∨ mp = some "") →
      (create_config o mp env).1 = 0
      ∧ (create_config o mp env).2.env.errorBuf
          = "ERROR: NULL or empty model_path provided")
  ∧ (∀ s d, mp = some s → s ≠ "" → o.createConfig = some d →
      (create_config o mp env).1 = 0
      ∧ (create_config o mp env).2.env.errorBuf = "Config creation failed: " ++ d)
  ∧ (∀ s, mp = some s → s ≠ "" → o.createConfig = none →
      (create_config o mp env).1 = o.configAddr
      ∧ (create_config o mp env).1 ≠ 0) := by
  refine ⟨?_, ?_, ?_⟩
  · rintro (rfl | rfl) <;> simp [create_config, set_error]
  · rintro s d rfl hs hcc
    simp [create_config, tryAcquire, check_oga_result, hs, hcc]
  · rintro s rfl hs hcc
    simp [create_config, tryAcquire, check_oga_result, hs, hcc, haddr]

/-- Witness for C5: a successful creation returns the engine's nonzero
address. -/
theorem claim_C5_witness :
    (create_config allOkOracle (some "m") { resultBuf := "", errorBuf := "" }).1 = 1
    ∧ (create_config allOkOracle (some "m") { resultBuf := "", errorBuf := "" }).1 ≠ 0 := by
  have h := (claim_C5 allOkOracle (some "m") { resultBuf := "", errorBuf := "" }
    (by decide)).2.2 "m" rfl (by decide) rfl
  exact h

theorem loopFrags_decodeFail (pre post : List IterOutcome) (d : String) :
    loopFrags (pre ++ IterOutcome.decodeFail d :: post) = loopFrags (pre ++ post) := by
  induction pre with
  | nil => simp [loopFrags, isBreakIter, fragOf]
  | cons it rest ih => cases it <;> simp_all [loopFrags, isBreakIter, fragOf]

theorem mmTail_fst_iters (o : Oracle) (A B : List IterOutcome) (b : Bool) (st : St)
    (hAB : loopFrags A = loopFrags B) :
    (mmTail { o with iters := A } b st).1 = (mmTail { o with iters := B } b st).1 := by
  unfold mmTail
  cases hp : o.processImages with
  | some d => simp [tryAcquire, check_oga_result, hp]
  | none =>
  cases h2 : o.createParams with
  | some d => simp [tryAcquire, check_oga_result, hp, h2]
  | none =>
  cases h3 : o.createGenerator with
  | some d => simp [tryAcquire, check_oga_result, hp, h2, h3]
  | none =>
  cases h4 : o.setInputs with
  | some d => simp [tryAcquire, tryOp, check_oga_result, hp, h2, h3, h4]
  | none =>
  cases h5 : o.createStream with
  | some d => simp [tryAcquire, tryOp, check_oga_result, hp, h2, h3, h4, h5]
  | none =>
    simp only [tryAcquire, tryOp, check_oga_result, hp, h2, h3, h4, h5]
    simp [set_result, runLoop_fst, hAB]

/-- Claim C7 (functional_correctness): inside the generation loop a
decode failure at one token does not terminate the loop and
contributes nothing to the output: the loop result with a `decodeFail`
iteration removed is unchanged, the loop result is exactly the
concatenation, in order, of the successfully decoded fragments before
the first breaking iteration, and the returned text of
`run_text_inference` and `run_inference_with_config` is insensitive to
a `decodeFail` iteration. -/
theorem claim_C7 :
    (∀ (pre post : List IterOutcome) (d : String) (st : St) (acc : String),
        (runLoop (pre ++ IterOutcome.decodeFail d :: post) st acc).1
          = (runLoop (pre ++ post) st acc).1)
  ∧ (∀ (l : List IterOutcome) (st : St) (acc : String),
        (runLoop l st acc).1 = acc ++ joinFrags (loopFrags l))
  ∧ (∀ (o : Oracle) (mp p : Option String) (len : Int) (env : Env)
        (pre post : List IterOutcome) (d : String),
        (run_text_inference { o with iters := pre ++ IterOutcome.decodeFail d :: post }
          mp p len env).1
          = (run_text_inference { o with iters := pre ++ post } mp p len env).1)
  ∧ (∀ (o : Oracle) (hdl : Nat) (p ip : Option String) (env : Env)
        (pre post : List IterOutcome) (d : String),
        (run_inference_with_config { o with iters := pre ++ IterOutcome.decodeFail d :: post }
          hdl p ip env).1
          = (run_inference_with_config { o with iters := pre ++ post } hdl p ip env).1) := by
  refine ⟨?_, runLoop_fst, ?_, ?_⟩
  · intro pre post d st acc
    rw [runLoop_fst, runLoop_fst, loopFrags_decodeFail]
  · intro o mp p len env pre post d
    unfold run_text_inference
    by_cases hnull : mp = none ∨ p = none
    · simp [hnull]
    · simp only [if_neg hnull]
      cases h1 : o.createModel with
      | some e => simp [tryAcquire, check_oga_result, h1]
      | none =>
      cases h2 : o.createTokenizer with
      | some e => simp [tryAcquire, check_oga_result, h1, h2]
      | none =>
      cases h3 : o.createSequences with
      | some e => simp [tryAcquire, check_oga_result, h1, h2, h3]
      | none =>
      cases h4 : o.tokenizerEncode with
      | some e => simp [tryAcquire, tryOp, check_oga_result, h1, h2, h3, h4]
      | none =>
      cases h5 : o.createParams with
      | some e => simp [tryAcquire, tryOp, check_oga_result, h1, h2, h3, h4, h5]
      | none =>
      cases h6 : o.createGenerator with
      | some e => simp [tryAcquire, tryOp, check_oga_result, h1, h2, h3, h4, h5, h6]
      | none =>
      cases h7 : o.appendTokenSequences with
      | some e => simp [tryAcquire, tryOp, check_oga_result, h1, h2, h3, h4, h5, h6, h7]
      | none =>
      cases h8 : o.createStream with
      | some e => simp [tryAcquire, tryOp, check_oga_result, h1, h2, h3, h4, h5, h6, h7, h8]
      | none =>
        simp [tryAcquire, tryOp, check_oga_result, h1, h2, h3, h4, h5, h6, h7, h8,
          set_result, runLoop_fst, loopFrags_decodeFail]
  · intro o hdl p ip env pre post d
    unfold run_inference_with_config
    by_cases hh : hdl = 0
    · simp [hh]
    · simp only [if_neg hh]
      by_cases hp0 : p = none
      · simp [hp0]
      · simp only [if_neg hp0]
        cases h1 : o.createModelFromConfig with
        | some e => simp [tryAcquire, check_oga_result, h1]
        | none =>
        cases h2 : o.createProcessor with
        | some e => simp [tryAcquire, check_oga_result, h1, h2]
        | none =>
        cases h3 : o.createTokenizer with
        | some e => simp [tryAcquire, check_oga_result, h1, h2, h3]
        | none =>
        cases hip : ip with
        | none =>
          simp only [tryAcquire, check_oga_result, h1, h2, h3, loadImageStep]
          exact mmTail_fst_iters o _ _ false _ (loopFrags_decodeFail pre post d)
        | some s =>
          by_cases hs : s = ""
          · simp only [tryAcquire, check_oga_result, h1, h2, h3, loadImageStep, hs, if_pos rfl]
            exact mmTail_fst_iters o _ _ false _ (loopFrags_decodeFail pre post d)
          · cases hli : o.loadImage with
            | some e =>
              simp [tryAcquire, check_oga_result, h1, h2, h3, loadImageStep, hs, hli]
            | none =>
              simp only [tryAcquire, check_oga_result, h1, h2, h3, loadImageStep, hli, if_neg hs]
              exact mmTail_fst_iters o _ _ true _ (loopFrags_decodeFail pre post d)

/-- Claim C8 (algebraic_relational): a zero-image multimodal call takes
the same code path as a call with no image argument — `run_inference`
with a NULL image path, `run_inference` with an empty image path and
`run_inference_multi` with `image_count = 0` produce identical results
and traces, skip image loading, hand the processor a NULL image batch
(visible as the `processImages false` argument when that call fails),
and do not error solely because the image count is zero (with every
chain step succeeding the zero-image multi call returns the loop text
via `set_result`). -/
theorem claim_C8 :
    (∀ (o : Oracle) (mp p : Option String) (env : Env),
        run_inference o mp p none env = run_inference o mp p (some "") env)
  ∧ (∀ (o : Oracle) (mp p : Option String) (paths : Option (Nat → Option String)) (env : Env),
        run_inference o mp p none env = run_inference_multi o mp p paths 0 env)
  ∧ (∀ (o : Oracle) (mps ps : String) (env : Env) (d : String),
        o.createModel = none → o.createProcessor = none → o.createTokenizer = none →
        o.processImages = some d →
        Event.callErr (EngineFn.processImages false)
          ∈ (run_inference o (some mps) (some ps) none env).2.trace)
  ∧ (∀ (o : Oracle) (mps ps : String) (paths : Option (Nat → Option String)) (env : Env),
        o.createModel = none → o.createProcessor = none → o.createTokenizer = none →
        o.processImages = none → o.createParams = none → o.createGenerator = none →
        o.setInputs = none → o.createStream = none →
        (run_inference_multi o (some mps) (some ps) paths 0 env).1
            = joinFrags (loopFrags o.iters)
        ∧ (run_inference_multi o (some mps) (some ps) paths 0 env).2.env.resultBuf
            = joinFrags (loopFrags o.iters)) := by
  refine ⟨fun _ _ _ _ => rfl, fun _ _ _ _ _ => rfl, ?_, ?_⟩
  · intro o mps ps env d h1 h2 h3 hp
    unfold run_inference mmTail
    simp [tryAcquire, check_oga_result, h1, h2, h3, hp, loadImageStep, failReturn, relAll]
  · intro o mps ps paths env h1 h2 h3 hp hpar hg hsi hstr
    unfold run_inference_multi mmTailMulti
    simp [tryAcquire, tryOp, check_oga_result, h1, h2, h3, hp, hpar, hg, hsi, hstr,
      loadImagesMultiStep, set_result, runLoop_fst, optRes, relAll]

/-- Witness for C8: with a failing processor the trace of the
no-image call records a NULL image batch, and with an all-succeeding
chain the zero-image multi call returns the (empty) loop text. -/
theorem claim_C8_witness :
    Event.callErr (EngineFn.processImages false)
      ∈ (run_inference { allOkOracle with processImages := some "bad" }
          (some "m") (some "p") none { resultBuf := "", errorBuf := "" }).2.trace
    ∧ (run_inference_multi allOkOracle (some "m") (some "p") none 0
        { resultBuf := "", errorBuf := "" }).1 = "" := by
  constructor
  · exact claim_C8.2.2.1 { allOkOracle with processImages := some "bad" }
      "m" "p" { resultBuf := "", errorBuf := "" } "bad" rfl rfl rfl rfl
  · exact (claim_C8.2.2.2 allOkOracle "m" "p" none { resultBuf := "", errorBuf := "" }
      rfl rfl rfl rfl rfl rfl rfl rfl).1

/-- Counterexample to C3 as stated: an EMPTY (non-NULL) model path is a
"required path argument that is the empty string", yet
`run_text_inference` does not return its null-input sentinel before
any resource acquisition — the engine is called and the model is
acquired (the NULL check tests only for NULL, not emptiness). -/
theorem claim_C3_counterexample :
    Event.acquire Resource.model ∈
      (run_text_inference allOkOracle (some "") (some "x") 0
        { resultBuf := "", errorBuf := "" }).2.trace
    ∧ (run_text_inference allOkOracle (some "") (some "x") 0
        { resultBuf := "", errorBuf := "" }).2.trace ≠ []
    ∧ (run_text_inference allOkOracle (some "") (some "x") 0
        { resultBuf := "", errorBuf := "" }).1
        ≠ "ERROR: NULL model_path or prompt provided" := by decide

/-- Claim C3, amended: every call whose required path or prompt
argument is NULL returns its null-input failure sentinel with zero
calls into the engine; `check_native_health` and `create_config`
additionally validate the empty string.  The generation calls perform
no empty-string check: an empty path or prompt is passed on to the
engine (see the counterexample). -/
theorem claim_C3 (o : Oracle) (env : Env) :
    (∀ mp, (mp = none ∨ mp = some "") →
      check_native_health o mp env = (-1, { env := env, trace := [] }))
  ∧ (∀ mp, (mp = none ∨ mp = some "") →
      (create_config o mp env).1 = 0 ∧ (create_config o mp env).2.trace = [])
  ∧ (∀ mp p len, (mp = none ∨ p = none) →
      (run_text_inference o mp p len env).1 = "ERROR: NULL model_path or prompt provided"
      ∧ (run_text_inference o mp p len env).2.trace = [])
  ∧ (∀ mp p ip, (mp = none ∨ p = none) →
      (run_inference o mp p ip env).1 = "ERROR: NULL model_path or prompt provided"
      ∧ (run_inference o mp p ip env).2.trace = [])
  ∧ (∀ mp p (paths : Option (Nat → Option String)) count, (mp = none ∨ p = none) →
      (run_inference_multi o mp p paths count env).1
          = "ERROR: NULL model_path or prompt provided"
      ∧ (run_inference_multi o mp p paths count env).2.trace = [])
  ∧ (∀ hdl ip, ¬hdl = 0 →
      (run_inference_with_config o hdl none ip env).1 = "ERROR: NULL prompt provided"
      ∧ (run_inference_with_config o hdl none ip env).2.trace = [])
  ∧ (∀ hdl (paths : Option (Nat → Option String)) count, ¬hdl = 0 →
      (run_inference_multi_with_config o hdl none paths count env).1
          = "ERROR: NULL prompt provided"
      ∧ (run_inference_multi_with_config o hdl none paths count env).2.trace = []) := by
  refine ⟨?_, ?_, ?_, ?_, ?_, ?_, ?_⟩
  · rintro mp (rfl | rfl) <;> simp [check_native_health]
  · rintro mp (rfl | rfl) <;> simp [create_config, set_error]
  · rintro mp p len (rfl | rfl) <;> simp [run_text_inference, retErr, set_error]
  · rintro mp p ip (rfl | rfl) <;> simp [run_inference, retErr, set_error]
  · rintro mp p paths count (rfl | rfl) <;> simp [run_inference_multi, retErr, set_error]
  · intro hdl ip hh
    simp [run_inference_with_config, retErr, set_error, hh]
  · intro hdl paths count hh
    simp [run_inference_multi_with_config, retErr, set_error, hh]

/-- Witness for the amended C3: a NULL prompt is rejected by
`run_text_inference` with an empty trace. -/
theorem claim_C3_witness :
    (run_text_inference allOkOracle (some "m") none 0
        { resultBuf := "", errorBuf := "" }).1
      = "ERROR: NULL model_path or prompt provided"
    ∧ (run_text_inference allOkOracle (some "m") none 0
        { resultBuf := "", errorBuf := "" }).2.trace = [] :=
  (claim_C3 allOkOracle { resultBuf := "", errorBuf := "" }).2.2.1
    (some "m") none 0 (Or.inr rfl)

/-- Counterexample to C4 as stated: `config_clear_providers` on a live
handle whose engine call fails returns its sentinel `-2` while the
error buffer holds "Clear providers failed: detail" — a string that
does not have the required "ERROR: {context}: {detail}" form (it lacks
the "ERROR: " prefix, because this path never calls `set_error`). -/
theorem claim_C4_counterexample :
    (config_clear_providers { allOkOracle with clearProviders := some "detail" } 1
      { resultBuf := "", errorBuf := "" }).1 = -2
    ∧ get_last_error (config_clear_providers
        { allOkOracle with clearProviders := some "detail" } 1
        { resultBuf := "", errorBuf := "" }).2.env = "Clear providers failed: detail"
    ∧ ∀ rest : String,
        get_last_error (config_clear_providers
          { allOkOracle with clearProviders := some "detail" } 1
          { resultBuf := "", errorBuf := "" }).2.env ≠ "ERROR: " ++ rest := by
  refine ⟨by decide, by decide, ?_⟩
  intro rest h
  have hbuf : get_last_error (config_clear_providers
      { allOkOracle with clearProviders := some "detail" } 1
      { resultBuf := "", errorBuf := "" }).2.env = "Clear providers failed: detail" := by decide
  rw [hbuf] at h
  have hd := congrArg String.data h
  simp [String.data_append] at hd

theorem genfail_mmTail (o : Oracle) (b : Bool) (st : St)
    (hp : o.processImages = none) (h2 : o.createParams = none)
    (h3 : o.createGenerator = none) (h4 : o.setInputs = none)
    (h5 : o.createStream = none)
    (pre post : List IterOutcome) (d : String)
    (hIt : o.iters = pre ++ IterOutcome.genFail d :: post)
    (hpre : ∀ it ∈ pre, isBreakIter it = false) :
    (mmTail o b st).1 = joinFrags (pre.filterMap fragOf)
    ∧ (mmTail o b st).2.env.resultBuf = joinFrags (pre.filterMap fragOf)
    ∧ (mmTail o b st).2.env.errorBuf = "Generate next token failed: " ++ d := by
  unfold mmTail
  simp [tryAcquire, tryOp, check_oga_result, hp, h2, h3, h4, h5, set_result, hIt]
  refine ⟨?_, ?_⟩
  · rw [(runLoop_genFail pre post d _ "" hpre).1]
    simp
  · rw [(runLoop_genFail pre post d _ "" hpre).2]

theorem genfail_mmTailMulti (o : Oracle) (b : Bool) (st : St)
    (hp : o.processImages = none) (h2 : o.createParams = none)
    (h3 : o.createGenerator = none) (h4 : o.setInputs = none)
    (h5 : o.createStream = none)
    (pre post : List IterOutcome) (d : String)
    (hIt : o.iters = pre ++ IterOutcome.genFail d :: post)
    (hpre : ∀ it ∈ pre, isBreakIter it = false) :
    (mmTailMulti o b st).1 = joinFrags (pre.filterMap fragOf)
    ∧ (mmTailMulti o b st).2.env.resultBuf = joinFrags (pre.filterMap fragOf)
    ∧ (mmTailMulti o b st).2.env.errorBuf = "Generate next token failed: " ++ d := by
  unfold mmTailMulti
  simp [tryAcquire, tryOp, check_oga_result, hp, h2, h3, h4, h5, set_result, hIt]
  refine ⟨?_, ?_⟩
  · rw [(runLoop_genFail pre post d _ "" hpre).1]
    simp
  · rw [(runLoop_genFail pre post d _ "" hpre).2]

theorem genfail_mmTailMultiCfg (o : Oracle) (b : Bool) (st : St)
    (hp : o.processImages = none) (h2 : o.createParams = none)
    (h3 : o.createGenerator = none) (h4 : o.setInputs = none)
    (h5 : o.createStream = none)
    (pre post : List IterOutcome) (d : String)
    (hIt : o.iters = pre ++ IterOutcome.genFail d :: post)
    (hpre : ∀ it ∈ pre, isBreakIter it = false) :
    (mmTailMultiCfg o b st).1 = joinFrags (pre.filterMap fragOf)
    ∧ (mmTailMultiCfg o b st).2.env.resultBuf = joinFrags (pre.filterMap fragOf)
    ∧ (mmTailMultiCfg o b st).2.env.errorBuf = "Generate next token failed: " ++ d := by
  unfold mmTailMultiCfg
  simp [tryAcquire, tryOp, check_oga_result, hp, h2, h3, h4, h5, set_result, hIt]
  refine ⟨?_, ?_⟩
  · rw [(runLoop_genFail pre post d _ "" hpre).1]
    simp
  · rw [(runLoop_genFail pre post d _ "" hpre).2]

theorem genfail_run_inference (o : Oracle) (mps ps : String)
    (ip : Option String) (env : Env)
    (h1 : o.createModel = none) (h2 : o.createProcessor = none)
    (h3 : o.createTokenizer = none)
    (hli : nonEmptyStr ip = true → o.loadImage = none)
    (hp : o.processImages = none) (hpar : o.createParams = none)
    (hg : o.createGenerator = none) (hsi : o.setInputs = none)
    (hstr : o.createStream = none)
    (pre post : List IterOutcome) (d : String)
    (hIt : o.iters = pre ++ IterOutcome.genFail d :: post)
    (hpre : ∀ it ∈ pre, isBreakIter it = false) :
    (run_inference o (some mps) (some ps) ip env).1 = joinFrags (pre.filterMap fragOf)
    ∧ (run_inference o (some mps) (some ps) ip env).2.env.resultBuf
        = joinFrags (pre.filterMap fragOf)
    ∧ (run_inference o (some mps) (some ps) ip env).2.env.errorBuf
        = "Generate next token failed: " ++ d := by
  unfold run_inference
  cases hip : ip with
  | none =>
    simp only [tryAcquire, check_oga_result, h1, h2, h3, loadImageStep]
    exact genfail_mmTail o false _ hp hpar hg hsi hstr pre post d hIt hpre
  | some s =>
    by_cases hs : s = ""
    · simp only [tryAcquire, check_oga_result, h1, h2, h3, loadImageStep, hs, if_pos rfl]
      exact genfail_mmTail o false _ hp hpar hg hsi hstr pre post d hIt hpre
    · have hli' : o.loadImage = none := hli (by simp [nonEmptyStr, hip, hs])
      simp only [tryAcquire, check_oga_result, h1, h2, h3, loadImageStep, hli', if_neg hs]
      exact genfail_mmTail o true _ hp hpar hg hsi hstr pre post d hIt hpre

theorem genfail_run_inference_multi (o : Oracle) (mps ps : String)
    (pf : Nat → Option String) (count : Int) (env : Env)
    (h1 : o.createModel = none) (h2 : o.createProcessor = none)
    (h3 : o.createTokenizer = none)
    (hsa : count > 0 → o.createStringArrayFromStrings = none)
    (hli : count > 0 → o.loadImages = none)
    (hp : o.processImages = none) (hpar : o.createParams = none)
    (hg : o.createGenerator = none) (hsi : o.setInputs = none)
    (hstr : o.createStream = none)
    (pre post : List IterOutcome) (d : String)
    (hIt : o.iters = pre ++ IterOutcome.genFail d :: post)
    (hpre : ∀ it ∈ pre, isBreakIter it = false) :
    (run_inference_multi o (some mps) (some ps) (some pf) count env).1
        = joinFrags (pre.filterMap fragOf)
    ∧ (run_inference_multi o (some mps) (some ps) (some pf) count env).2.env.resultBuf
        = joinFrags (pre.filterMap fragOf)
    ∧ (run_inference_multi o (some mps) (some ps) (some pf) count env).2.env.errorBuf
        = "Generate next token failed: " ++ d := by
  unfold run_inference_multi
  by_cases hc : count > 0
  · simp only [tryAcquire, check_oga_result, h1, h2, h3, loadImagesMultiStep,
      hsa hc, hli hc, if_pos hc, Option.isNone_some, and_false, if_false,
      Bool.false_eq_true]
    exact genfail_mmTailMulti o true _ hp hpar hg hsi hstr pre post d hIt hpre
  · simp only [tryAcquire, check_oga_result, h1, h2, h3, loadImagesMultiStep, if_neg hc,
      Option.isNone_some, and_false, if_false, Bool.false_eq_true]
    exact genfail_mmTailMulti o false _ hp hpar hg hsi hstr pre post d hIt hpre

theorem genfail_run_inference_with_config (o : Oracle) (hdl : Nat) (ps : String)
    (ip : Option String) (env : Env) (hh : ¬hdl = 0)
    (h1 : o.createModelFromConfig = none) (h2 : o.createProcessor = none)
    (h3 : o.createTokenizer = none)
    (hli : nonEmptyStr ip = true → o.loadImage = none)
    (hp : o.processImages = none) (hpar : o.createParams = none)
    (hg : o.createGenerator = none) (hsi : o.setInputs = none)
    (hstr : o.createStream = none)
    (pre post : List IterOutcome) (d : String)
    (hIt : o.iters = pre ++ IterOutcome.genFail d :: post)
    (hpre : ∀ it ∈ pre, isBreakIter it = false) :
    (run_inference_with_config o hdl (some ps) ip env).1
        = joinFrags (pre.filterMap fragOf)
    ∧ (run_inference_with_config o hdl (some ps) ip env).2.env.resultBuf
        = joinFrags (pre.filterMap fragOf)
    ∧ (run_inference_with_config o hdl (some ps) ip env).2.env.errorBuf
        = "Generate next token failed: " ++ d := by
  unfold run_inference_with_config
  rw [if_neg hh]
  cases hip : ip with
  | none =>
    simp only [tryAcquire, check_oga_result, h1, h2, h3, loadImageStep]
    exact genfail_mmTail o false _ hp hpar hg hsi hstr pre post d hIt hpre
  | some s =>
    by_cases hs : s = ""
    · simp only [tryAcquire, check_oga_result, h1, h2, h3, loadImageStep, hs, if_pos rfl]
      exact genfail_mmTail o false _ hp hpar hg hsi hstr pre post d hIt hpre
    · have hli' : o.loadImage = none := hli (by simp [nonEmptyStr, hip, hs])
      simp only [tryAcquire, check_oga_result, h1, h2, h3, loadImageStep, hli', if_neg hs]
      exact genfail_mmTail o true _ hp hpar hg hsi hstr pre post d hIt hpre

theorem genfail_cfgLoadTail (o : Oracle) (paths : Nat → Option String)
    (count : Int) (st : St)
    (hsa : count > 0 → o.createStringArray = none)
    (hadds : count > 0 → ∀ j, j < count.toNat →
      (paths j).isSome = true ∧ o.addString j = none)
    (hli : count > 0 → o.loadImages = none)
    (hp : o.processImages = none) (hpar : o.createParams = none)
    (hg : o.createGenerator = none) (hsi : o.setInputs = none)
    (hstr : o.createStream = none)
    (pre post : List IterOutcome) (d : String)
    (hIt : o.iters = pre ++ IterOutcome.genFail d :: post)
    (hpre : ∀ it ∈ pre, isBreakIter it = false) :
    (match loadImagesMultiCfgStep o paths count st with
      | .error r => r
      | .ok (b, st') => mmTailMultiCfg o b st').1 = joinFrags (pre.filterMap fragOf)
    ∧ (match loadImagesMultiCfgStep o paths count st with
      | .error r => r
      | .ok (b, st') => mmTailMultiCfg o b st').2.env.resultBuf
        = joinFrags (pre.filterMap fragOf)
    ∧ (match loadImagesMultiCfgStep o paths count st with
      | .error r => r
      | .ok (b, st') => mmTailMultiCfg o b st').2.env.errorBuf
        = "Generate next token failed: " ++ d := by
  unfold loadImagesMultiCfgStep
  by_cases hc : count > 0
  · simp only [if_pos hc, tryAcquire, check_oga_result, hsa hc]
    have key := addLoop_ok o paths count.toNat 0
      { env := st.env, trace := st.trace ++ [Event.acquire Resource.imagePathArray] }
      (fun j hj => by simpa using hadds hc j hj)
    cases hAL : addImagePathsLoop o paths count.toNat 0
        { env := st.env, trace := st.trace ++ [Event.acquire Resource.imagePathArray] } with
    | mk res st2 =>
      rw [hAL] at key
      obtain ⟨hres, henv⟩ := key
      simp only at hres henv
      subst hres
      simp only [hAL, tryAcquire, check_oga_result, hli hc, Bool.false_eq_true, if_false]
      exact genfail_mmTailMultiCfg o true _ hp hpar hg hsi hstr pre post d hIt hpre
  · simp only [if_neg hc]
    exact genfail_mmTailMultiCfg o false st hp hpar hg hsi hstr pre post d hIt hpre

theorem genfail_run_inference_multi_with_config (o : Oracle) (hdl : Nat)
    (ps : String) (paths : Nat → Option String) (count : Int) (env : Env)
    (hh : ¬hdl = 0)
    (h1 : o.createModelFromConfig = none) (h2 : o.createProcessor = none)
    (h3 : o.createTokenizer = none)
    (hsa : count > 0 → o.createStringArray = none)
    (hadds : count > 0 → ∀ j, j < count.toNat →
      (paths j).isSome = true ∧ o.addString j = none)
    (hli : count > 0 → o.loadImages = none)
    (hp : o.processImages = none) (hpar : o.createParams = none)
    (hg : o.createGenerator = none) (hsi : o.setInputs = none)
    (hstr : o.createStream = none)
    (pre post : List IterOutcome) (d : String)
    (hIt : o.iters = pre ++ IterOutcome.genFail d :: post)
    (hpre : ∀ it ∈ pre, isBreakIter it = false) :
    (run_inference_multi_with_config o hdl (some ps) (some paths) count env).1
        = joinFrags (pre.filterMap fragOf)
    ∧ (run_inference_multi_with_config o hdl (some ps) (some paths) count env).2.env.resultBuf
        = joinFrags (pre.filterMap fragOf)
    ∧ (run_inference_multi_with_config o hdl (some ps) (some paths) count env).2.env.errorBuf
        = "Generate next token failed: " ++ d := by
  unfold run_inference_multi_with_config
  rw [if_neg hh]
  simp only [tryAcquire, check_oga_result, h1, h2, h3, Option.isNone_some, and_false,
    Bool.false_eq_true, if_false]
  have h := genfail_cfgLoadTail o (fun i => ((some paths).getD (fun _ => none)) i) count
    { env := env,
      trace := [] ++ [Event.acquire Resource.model] ++ [Event.acquire Resource.processor]
        ++ [Event.acquire Resource.tokenizer] }
    hsa (by simpa using hadds) hli hp hpar hg hsi hstr pre post d hIt hpre
  simpa using h

/-- Claim C2 (error_handling): for every generation call —
`run_text_inference`, `run_inference`, `run_inference_multi`,
`run_inference_with_config` and `run_inference_multi_with_config` — if
`OgaGenerator_GenerateNextToken` fails after the `pre` loop iterations
(none of which breaks the loop), the loop stops immediately and the
call still returns, via `set_result` (the returned string equals the
final result buffer), the concatenation of the fragments decoded in
those iterations — not an error sentinel — while the failure message
is simultaneously recorded in the thread-local error buffer
retrievable via `get_last_error`. -/
theorem claim_C2 :
    (∀ (o : Oracle) (mps ps : String) (len : Int) (env : Env)
        (pre post : List IterOutcome) (d : String),
      o.createModel = none → o.createTokenizer = none →
      o.createSequences = none → o.tokenizerEncode = none →
      o.createParams = none → o.createGenerator = none →
      o.appendTokenSequences = none → o.createStream = none →
      o.iters = pre ++ IterOutcome.genFail d :: post →
      (∀ it ∈ pre, isBreakIter it = false) →
      (run_text_inference o (some mps) (some ps) len env).1
          = joinFrags (pre.filterMap fragOf)
      ∧ (run_text_inference o (some mps) (some ps) len env).2.env.resultBuf
          = joinFrags (pre.filterMap fragOf)
      ∧ get_last_error (run_text_inference o (some mps) (some ps) len env).2.env
          = "Generate next token failed: " ++ d)
  ∧ (∀ (o : Oracle) (mps ps : String) (ip : Option String) (env : Env)
        (pre post : List IterOutcome) (d : String),
      o.createModel = none → o.createProcessor = none → o.createTokenizer = none →
      (nonEmptyStr ip = true → o.loadImage = none) →
      o.processImages = none → o.createParams = none → o.createGenerator = none →
      o.setInputs = none → o.createStream = none →
      o.iters = pre ++ IterOutcome.genFail d :: post →
      (∀ it ∈ pre, isBreakIter it = false) →
      (run_inference o (some mps) (some ps) ip env).1
          = joinFrags (pre.filterMap fragOf)
      ∧ (run_inference o (some mps) (some ps) ip env).2.env.resultBuf
          = joinFrags (pre.filterMap fragOf)
      ∧ get_last_error (run_inference o (some mps) (some ps) ip env).2.env
          = "Generate next token failed: " ++ d)
  ∧ (∀ (o : Oracle) (mps ps : String) (pf : Nat → Option String) (count : Int)
        (env : Env) (pre post : List IterOutcome) (d : String),
      o.createModel = none → o.createProcessor = none → o.createTokenizer = none →
      (count > 0 → o.createStringArrayFromStrings = none) →
      (count > 0 → o.loadImages = none) →
      o.processImages = none → o.createParams = none → o.createGenerator = none →
      o.setInputs = none → o.createStream = none →
      o.iters = pre ++ IterOutcome.genFail d :: post →
      (∀ it ∈ pre, isBreakIter it = false) →
      (run_inference_multi o (some mps) (some ps) (some pf) count env).1
          = joinFrags (pre.filterMap fragOf)
      ∧ (run_inference_multi o (some mps) (some ps) (some pf) count env).2.env.resultBuf
          = joinFrags (pre.filterMap fragOf)
      ∧ get_last_error (run_inference_multi o (some mps) (some ps) (some pf) count env).2.env
          = "Generate next token failed: " ++ d)
  ∧ (∀ (o : Oracle) (hdl : Nat) (ps : String) (ip : Option String) (env : Env)
        (pre post : List IterOutcome) (d : String),
      ¬hdl = 0 →
      o.createModelFromConfig = none → o.createProcessor = none →
      o.createTokenizer = none →
      (nonEmptyStr ip = true → o.loadImage = none) →
      o.processImages = none → o.createParams = none → o.createGenerator = none →
      o.setInputs = none → o.createStream = none →
      o.iters = pre ++ IterOutcome.genFail d :: post →
      (∀ it ∈ pre, isBreakIter it = false) →
      (run_inference_with_config o hdl (some ps) ip env).1
          = joinFrags (pre.filterMap fragOf)
      ∧ (run_inference_with_config o hdl (some ps) ip env).2.env.resultBuf
          = joinFrags (pre.filterMap fragOf)
      ∧ get_last_error (run_inference_with_config o hdl (some ps) ip env).2.env
          = "Generate next token failed: " ++ d)
  ∧ (∀ (o : Oracle) (hdl : Nat) (ps : String) (pf : Nat → Option String)
        (count : Int) (env : Env) (pre post : List IterOutcome) (d : String),
      ¬hdl = 0 →
      o.createModelFromConfig = none → o.createProcessor = none →
      o.createTokenizer = none →
      (count > 0 → o.createStringArray = none) →
      (count > 0 → ∀ j, j < count.toNat → (pf j).isSome = true ∧ o.addString j = none) →
      (count > 0 → o.loadImages = none) →
      o.processImages = none → o.createParams = none → o.createGenerator = none →
      o.setInputs = none → o.createStream = none →
      o.iters = pre ++ IterOutcome.genFail d :: post →
      (∀ it ∈ pre, isBreakIter it = false) →
      (run_inference_multi_with_config o hdl (some ps) (some pf) count env).1
          = joinFrags (pre.filterMap fragOf)
      ∧ (run_inference_multi_with_config o hdl (some ps) (some pf) count env).2.env.resultBuf
          = joinFrags (pre.filterMap fragOf)
      ∧ get_last_error (run_inference_multi_with_config o hdl (some ps) (some pf) count env).2.env
          = "Generate next token failed: " ++ d) := by
  refine ⟨?_, ?_, ?_, ?_, ?_⟩
  · intro o mps ps len env pre post d h1 h2 h3 h4 h5 h6 h7 h8 hIt hpre
    exact genfail_run_text_inference o mps ps len env pre post d
      h1 h2 h3 h4 h5 h6 h7 h8 hIt hpre
  · intro o mps ps ip env pre post d h1 h2 h3 hli hp hpar hg hsi hstr hIt hpre
    exact genfail_run_inference o mps ps ip env h1 h2 h3 hli hp hpar hg hsi hstr
      pre post d hIt hpre
  · intro o mps ps pf count env pre post d h1 h2 h3 hsa hli hp hpar hg hsi hstr hIt hpre
    exact genfail_run_inference_multi o mps ps pf count env h1 h2 h3 hsa hli
      hp hpar hg hsi hstr pre post d hIt hpre
  · intro o hdl ps ip env pre post d hh h1 h2 h3 hli hp hpar hg hsi hstr hIt hpre
    exact genfail_run_inference_with_config o hdl ps ip env hh h1 h2 h3 hli
      hp hpar hg hsi hstr pre post d hIt hpre
  · intro o hdl ps pf count env pre post d hh h1 h2 h3 hsa hadds hli hp hpar hg hsi hstr hIt hpre
    exact genfail_run_inference_multi_with_config o hdl ps pf count env hh h1 h2 h3
      hsa hadds hli hp hpar hg hsi hstr pre post d hIt hpre

/-- Witness for C2 at concrete inputs: with all acquisitions
succeeding, one decoded fragment and then a generate-next-token
failure, both `run_text_inference` and the multimodal `run_inference`
return the fragment while the error buffer records the failure. -/
theorem claim_C2_witness :
    ((run_text_inference
        { allOkOracle with iters := [IterOutcome.decoded "Hel", IterOutcome.genFail "boom"] }
        (some "model") (some "prompt") 0 { resultBuf := "", errorBuf := "" }).1 = "Hel"
      ∧ (run_text_inference
          { allOkOracle with iters := [IterOutcome.decoded "Hel", IterOutcome.genFail "boom"] }
          (some "model") (some "prompt") 0 { resultBuf := "", errorBuf := "" }).2.env.resultBuf = "Hel"
      ∧ get_last_error (run_text_inference
          { allOkOracle with iters := [IterOutcome.decoded "Hel", IterOutcome.genFail "boom"] }
          (some "model") (some "prompt") 0 { resultBuf := "", errorBuf := "" }).2.env
        = "Generate next token failed: boom")
    ∧ ((run_inference
        { allOkOracle with iters := [IterOutcome.decoded "Hel", IterOutcome.genFail "boom"] }
        (some "model") (some "prompt") none { resultBuf := "", errorBuf := "" }).1 = "Hel"
      ∧ get_last_error (run_inference
          { allOkOracle with iters := [IterOutcome.decoded "Hel", IterOutcome.genFail "boom"] }
          (some "model") (some "prompt") none { resultBuf := "", errorBuf := "" }).2.env
        = "Generate next token failed: boom") := by
  constructor
  · have h := claim_C2.1
      { allOkOracle with iters := [IterOutcome.decoded "Hel", IterOutcome.genFail "boom"] }
      "model" "prompt" 0 { resultBuf := "", errorBuf := "" }
      [IterOutcome.decoded "Hel"] [] "boom"
      rfl rfl rfl rfl rfl rfl rfl rfl rfl (by decide)
    simpa [joinFrags, fragOf] using h
  · have h := claim_C2.2.1
      { allOkOracle with iters := [IterOutcome.decoded "Hel", IterOutcome.genFail "boom"] }
      "model" "prompt" none { resultBuf := "", errorBuf := "" }
      [IterOutcome.decoded "Hel"] [] "boom"
      rfl rfl rfl (fun _ => rfl) rfl rfl rfl rfl rfl rfl (by decide)
    exact ⟨by simpa [joinFrags, fragOf] using h.1, h.2.2⟩

/-- Every exit of a string-returning call is either a `set_result` exit
(the returned pointer is the final result buffer) or a `set_error` exit
(the returned pointer is the final error buffer, freshly written with
the "ERROR: " prefix, and the result buffer is untouched). -/
def retOkOrError (p : String × St) (env : Env) : Prop :=
  p.2.env.resultBuf = p.1
  ∨ (p.1 = p.2.env.errorBuf ∧ p.2.env.resultBuf = env.resultBuf
      ∧ ∃ rest, p.1 = "ERROR: " ++ rest)

theorem retOkOrError_failReturn (st : St) (cl : List Resource) (env : Env)
    (hrb : st.env.resultBuf = env.resultBuf) :
    retOkOrError (failReturn st cl) env :=
  Or.inr ⟨rfl, hrb, st.env.errorBuf, rfl⟩

theorem retOkOrError_retErr (st : St) (msg : String) (env : Env)
    (hrb : st.env.resultBuf = env.resultBuf) :
    retOkOrError (retErr st msg) env :=
  Or.inr ⟨rfl, hrb, msg, rfl⟩

theorem errform_mmTail (o : Oracle) (b : Bool) (st : St) (env : Env)
    (hrb : st.env.resultBuf = env.resultBuf) :
    retOkOrError (mmTail o b st) env := by
  unfold mmTail
  cases hp : o.processImages with
  | some d => exact retOkOrError_failReturn _ _ _ hrb
  | none =>
  cases h2 : o.createParams with
  | some d => exact retOkOrError_failReturn _ _ _ hrb
  | none =>
  cases hss : o.setSearchNumber with
  | some e =>
    cases h3 : o.createGenerator with
    | some d => exact retOkOrError_failReturn _ _ _ hrb
    | none =>
    cases h4 : o.setInputs with
    | some d => exact retOkOrError_failReturn _ _ _ hrb
    | none =>
    cases h5 : o.createStream with
    | some d => exact retOkOrError_failReturn _ _ _ hrb
    | none => exact Or.inl rfl
  | none =>
    cases h3 : o.createGenerator with
    | some d => exact retOkOrError_failReturn _ _ _ hrb
    | none =>
    cases h4 : o.setInputs with
    | some d => exact retOkOrError_failReturn _ _ _ hrb
    | none =>
    cases h5 : o.createStream with
    | some d => exact retOkOrError_failReturn _ _ _ hrb
    | none => exact Or.inl rfl

theorem errform_mmTailMulti (o : Oracle) (b : Bool) (st : St) (env : Env)
    (hrb : st.env.resultBuf = env.resultBuf) :
    retOkOrError (mmTailMulti o b st) env := by
  unfold mmTailMulti
  cases hp : o.processImages with
  | some d => exact retOkOrError_failReturn _ _ _ hrb
  | none =>
  cases h2 : o.createParams with
  | some d => exact retOkOrError_failReturn _ _ _ hrb
  | none =>
  cases hss : o.setSearchNumber with
  | some e =>
    cases h3 : o.createGenerator with
    | some d => exact retOkOrError_failReturn _ _ _ hrb
    | none =>
    cases h4 : o.setInputs with
    | some d => exact retOkOrError_failReturn _ _ _ hrb
    | none =>
    cases h5 : o.createStream with
    | some d => exact retOkOrError_failReturn _ _ _ hrb
    | none => exact Or.inl rfl
  | none =>
    cases h3 : o.createGenerator with
    | some d => exact retOkOrError_failReturn _ _ _ hrb
    | none =>
    cases h4 : o.setInputs with
    | some d => exact retOkOrError_failReturn _ _ _ hrb
    | none =>
    cases h5 : o.createStream with
    | some d => exact retOkOrError_failReturn _ _ _ hrb
    | none => exact Or.inl rfl

theorem errform_mmTailMultiCfg (o : Oracle) (b : Bool) (st : St) (env : Env)
    (hrb : st.env.resultBuf = env.resultBuf) :
    retOkOrError (mmTailMultiCfg o b st) env := by
  unfold mmTailMultiCfg
  cases hp : o.processImages with
  | some d => exact retOkOrError_failReturn _ _ _ hrb
  | none =>
  cases h2 : o.createParams with
  | some d => exact retOkOrError_failReturn _ _ _ hrb
  | none =>
  cases h3 : o.createGenerator with
  | some d => exact retOkOrError_failReturn _ _ _ hrb
  | none =>
  cases h4 : o.setInputs with
  | some d => exact retOkOrError_failReturn _ _ _ hrb
  | none =>
  cases h5 : o.createStream with
  | some d => exact retOkOrError_failReturn _ _ _ hrb
  | none => exact Or.inl rfl

theorem errform_run_text_inference (o : Oracle) (mp p : Option String)
    (len : Int) (env : Env) :
    retOkOrError (run_text_inference o mp p len env) env := by
  unfold run_text_inference
  split
  · exact retOkOrError_retErr _ _ _ rfl
  · cases h1 : o.createModel with
    | some d => exact retOkOrError_failReturn _ _ _ rfl
    | none =>
    cases h2 : o.createTokenizer with
    | some d => exact retOkOrError_failReturn _ _ _ rfl
    | none =>
    cases h3 : o.createSequences with
    | some d => exact retOkOrError_failReturn _ _ _ rfl
    | none =>
    cases h4 : o.tokenizerEncode with
    | some d => exact retOkOrError_failReturn _ _ _ rfl
    | none =>
    cases h5 : o.createParams with
    | some d => exact retOkOrError_failReturn _ _ _ rfl
    | none =>
    cases h6 : o.createGenerator with
    | some d =>
      exact retOkOrError_failReturn _ _ _ (by split <;> simp)
    | none =>
    cases h7 : o.appendTokenSequences with
    | some d =>
      exact retOkOrError_failReturn _ _ _ (by split <;> simp)
    | none =>
    cases h8 : o.createStream with
    | some d =>
      exact retOkOrError_failReturn _ _ _ (by split <;> simp)
    | none => exact Or.inl rfl

theorem errform_run_inference (o : Oracle) (mp p ip : Option String) (env : Env) :
    retOkOrError (run_inference o mp p ip env) env := by
  unfold run_inference
  split
  · exact retOkOrError_retErr _ _ _ rfl
  · cases h1 : o.createModel with
    | some d => exact retOkOrError_failReturn _ _ _ rfl
    | none =>
    cases h2 : o.createProcessor with
    | some d => exact retOkOrError_failReturn _ _ _ rfl
    | none =>
    cases h3 : o.createTokenizer with
    | some d => exact retOkOrError_failReturn _ _ _ rfl
    | none =>
    cases hip : ip with
    | none => exact errform_mmTail o false _ env rfl
    | some s =>
      by_cases hs : s = ""
      · simp only [loadImageStep, hs, if_pos rfl]
        exact errform_mmTail o false _ env rfl
      · cases hli : o.loadImage with
        | some d =>
          simp only [loadImageStep, if_neg hs, tryAcquire, check_oga_result, hli]
          exact retOkOrError_failReturn _ _ _ rfl
        | none =>
          simp only [loadImageStep, if_neg hs, tryAcquire, check_oga_result, hli]
          exact errform_mmTail o true _ env rfl

theorem errform_run_inference_multi (o : Oracle) (mp p : Option String)
    (paths : Option (Nat → Option String)) (count : Int) (env : Env) :
    retOkOrError (run_inference_multi o mp p paths count env) env := by
  unfold run_inference_multi
  split
  · exact retOkOrError_retErr _ _ _ rfl
  · split
    · exact retOkOrError_retErr _ _ _ rfl
    · cases h1 : o.createModel with
      | some d => exact retOkOrError_failReturn _ _ _ rfl
      | none =>
      cases h2 : o.createProcessor with
      | some d => exact retOkOrError_failReturn _ _ _ rfl
      | none =>
      cases h3 : o.createTokenizer with
      | some d => exact retOkOrError_failReturn _ _ _ rfl
      | none =>
      by_cases hc : count > 0
      · cases h4 : o.createStringArrayFromStrings with
        | some d =>
          simp only [loadImagesMultiStep, if_pos hc, tryAcquire, check_oga_result, h4]
          exact retOkOrError_failReturn _ _ _ rfl
        | none =>
          cases h5 : o.loadImages with
          | some d =>
            simp only [loadImagesMultiStep, if_pos hc, tryAcquire, check_oga_result, h4, h5]
            exact retOkOrError_failReturn _ _ _ rfl
          | none =>
            simp only [loadImagesMultiStep, if_pos hc, tryAcquire, check_oga_result, h4, h5]
            exact errform_mmTailMulti o true _ env rfl
      · simp only [loadImagesMultiStep, if_neg hc]
        exact errform_mmTailMulti o false _ env rfl

theorem errform_run_inference_with_config (o : Oracle) (hdl : Nat)
    (p ip : Option String) (env : Env) :
    retOkOrError (run_inference_with_config o hdl p ip env) env := by
  unfold run_inference_with_config
  split
  · exact retOkOrError_retErr _ _ _ rfl
  · split
    · exact retOkOrError_retErr _ _ _ rfl
    · cases h1 : o.createModelFromConfig with
      | some d => exact retOkOrError_failReturn _ _ _ rfl
      | none =>
      cases h2 : o.createProcessor with
      | some d => exact retOkOrError_failReturn _ _ _ rfl
      | none =>
      cases h3 : o.createTokenizer with
      | some d => exact retOkOrError_failReturn _ _ _ rfl
      | none =>
      cases hip : ip with
      | none => exact errform_mmTail o false _ env rfl
      | some s =>
        by_cases hs : s = ""
        · simp only [loadImageStep, hs, if_pos rfl]
          exact errform_mmTail o false _ env rfl
        · cases hli : o.loadImage with
          | some d =>
            simp only [loadImageStep, if_neg hs, tryAcquire, check_oga_result, hli]
            exact retOkOrError_failReturn _ _ _ rfl
          | none =>
            simp only [loadImageStep, if_neg hs, tryAcquire, check_oga_result, hli]
            exact errform_mmTail o true _ env rfl

theorem addLoop_resultBuf (o : Oracle) (paths : Nat → Option String)
    (n i : Nat) (st : St) :
    (addImagePathsLoop o paths n i st).2.env.resultBuf = st.env.resultBuf := by
  induction n generalizing i st with
  | zero => simp [addImagePathsLoop]
  | succ n ih =>
    unfold addImagePathsLoop
    cases paths i with
    | none => simp
    | some s =>
      cases ha : o.addString i with
      | some d => simp [tryOp, check_oga_result, ha]
      | none => simp [tryOp, check_oga_result, ha, ih]

theorem errform_cfgLoadTail (o : Oracle) (paths : Nat → Option String)
    (count : Int) (st : St) (env : Env)
    (hrb : st.env.resultBuf = env.resultBuf) :
    retOkOrError (match loadImagesMultiCfgStep o paths count st with
      | .error r => r
      | .ok (b, st') => mmTailMultiCfg o b st') env := by
  unfold loadImagesMultiCfgStep
  by_cases hc : count > 0
  · cases hsa : o.createStringArray with
    | some d =>
      simp only [if_pos hc, tryAcquire, check_oga_result, hsa]
      exact retOkOrError_failReturn _ _ _ hrb
    | none =>
      simp only [if_pos hc, tryAcquire, check_oga_result, hsa, Bool.false_eq_true, if_false]
      have hrb2 := addLoop_resultBuf o paths count.toNat 0
        { env := st.env, trace := st.trace ++ [Event.acquire Resource.imagePathArray] }
      cases hAL : addImagePathsLoop o paths count.toNat 0
          { env := st.env, trace := st.trace ++ [Event.acquire Resource.imagePathArray] } with
      | mk res st2 =>
        rw [hAL] at hrb2
        simp only at hrb2
        cases res with
        | failNull =>
          simp only [hAL]
          exact retOkOrError_retErr _ _ _ (hrb2.trans hrb)
        | failAdd =>
          simp only [hAL]
          exact retOkOrError_failReturn _ _ _ (hrb2.trans hrb)
        | okDone =>
          cases hli : o.loadImages with
          | some d =>
            simp only [hAL, tryAcquire, check_oga_result, hli, Bool.false_eq_true, if_false]
            exact retOkOrError_failReturn _ _ _ (hrb2.trans hrb)
          | none =>
            simp only [hAL, tryAcquire, check_oga_result, hli, Bool.false_eq_true, if_false]
            exact errform_mmTailMultiCfg o true _ env (hrb2.trans hrb)
  · simp only [if_neg hc]
    exact errform_mmTailMultiCfg o false st env hrb

theorem errform_run_inference_multi_with_config (o : Oracle) (hdl : Nat)
    (p : Option String) (paths : Option (Nat → Option String)) (count : Int)
    (env : Env) :
    retOkOrError (run_inference_multi_with_config o hdl p paths count env) env := by
  unfold run_inference_multi_with_config
  split
  · exact retOkOrError_retErr _ _ _ rfl
  · split
    · exact retOkOrError_retErr _ _ _ rfl
    · split
      · exact retOkOrError_retErr _ _ _ rfl
      · cases h1 : o.createModelFromConfig with
        | some d => exact retOkOrError_failReturn _ _ _ rfl
        | none =>
        cases h2 : o.createProcessor with
        | some d => exact retOkOrError_failReturn _ _ _ rfl
        | none =>
        cases h3 : o.createTokenizer with
        | some d => exact retOkOrError_failReturn _ _ _ rfl
        | none =>
          exact errform_cfgLoadTail o _ count _ env rfl

/-- Claim C4, amended: every failure path of every exported operation
other than `check_native_health` writes, before returning its
sentinel, an error string into the thread-local error buffer; the
string has the "ERROR: "-prefixed `set_error` form exactly for
argument-validation failures and for every failure of the five
string-returning generation calls (each of which returns precisely the
freshly written buffer with the result buffer untouched), while
engine-reported failures of `create_config` and the provider-mutation
operations leave only `check_oga_result`'s "{context}: {detail}"
without the prefix.  `check_native_health` signals failure by return
code alone: its NULL/empty-path failure writes nothing at all, and its
model/tokenizer failures leave only the unprefixed message. -/
theorem claim_C4 (o : Oracle) (env : Env) :
    (∀ mp, (mp = none ∨ mp = some "") →
      (check_native_health o mp env).1 = -1
      ∧ (check_native_health o mp env).2.env = env)
  ∧ (∀ s d, s ≠ "" → o.createModel = some d →
      (check_native_health o (some s) env).1 = -2
      ∧ (check_native_health o (some s) env).2.env.errorBuf
          = "Model creation failed: " ++ d)
  ∧ (∀ s d, s ≠ "" → o.createModel = none → o.createTokenizer = some d →
      (check_native_health o (some s) env).1 = -3
      ∧ (check_native_health o (some s) env).2.env.errorBuf
          = "Tokenizer creation failed: " ++ d)
  ∧ (∀ mp, (mp = none ∨ mp = some "") →
      (create_config o mp env).1 = 0
      ∧ (create_config o mp env).2.env.errorBuf
          = "ERROR: NULL or empty model_path provided")
  ∧ (∀ s d, s ≠ "" → o.createConfig = some d →
      (create_config o (some s) env).1 = 0
      ∧ (create_config o (some s) env).2.env.errorBuf = "Config creation failed: " ++ d)
  ∧ ((config_clear_providers o 0 env).1 = -1
      ∧ (config_clear_providers o 0 env).2.env.errorBuf = "ERROR: NULL config handle")
  ∧ (∀ hdl d, ¬hdl = 0 → o.clearProviders = some d →
      (config_clear_providers o hdl env).1 = -2
      ∧ (config_clear_providers o hdl env).2.env.errorBuf = "Clear providers failed: " ++ d)
  ∧ (∀ name, (config_append_provider o 0 name env).1 = -1
      ∧ (config_append_provider o 0 name env).2.env.errorBuf = "ERROR: NULL config handle")
  ∧ (∀ hdl name, ¬hdl = 0 → (name = none ∨ name = some "") →
      (config_append_provider o hdl name env).1 = -2
      ∧ (config_append_provider o hdl name env).2.env.errorBuf
          = "ERROR: NULL or empty provider name")
  ∧ (∀ hdl s d, ¬hdl = 0 → s ≠ "" → o.appendProvider = some d →
      (config_append_provider o hdl (some s) env).1 = -3
      ∧ (config_append_provider o hdl (some s) env).2.env.errorBuf
          = "Append provider failed: " ++ d)
  ∧ (∀ pr k v, (config_set_provider_option o 0 pr k v env).1 = -1
      ∧ (config_set_provider_option o 0 pr k v env).2.env.errorBuf
          = "ERROR: NULL config handle")
  ∧ (∀ hdl pr k v, ¬hdl = 0 → (pr = none ∨ k = none ∨ v = none) →
      (config_set_provider_option o hdl pr k v env).1 = -2
      ∧ (config_set_provider_option o hdl pr k v env).2.env.errorBuf
          = "ERROR: NULL parameter")
  ∧ (∀ hdl prs ks vs d, ¬hdl = 0 → o.setProviderOption = some d →
      (config_set_provider_option o hdl (some prs) (some ks) (some vs) env).1 = -3
      ∧ (config_set_provider_option o hdl (some prs) (some ks) (some vs) env).2.env.errorBuf
          = "Set provider option failed: " ++ d)
  ∧ (∀ mp p len, retOkOrError (run_text_inference o mp p len env) env)
  ∧ (∀ mp p ip, retOkOrError (run_inference o mp p ip env) env)
  ∧ (∀ mp p (paths : Option (Nat → Option String)) count,
      retOkOrError (run_inference_multi o mp p paths count env) env)
  ∧ (∀ hdl p ip, retOkOrError (run_inference_with_config o hdl p ip env) env)
  ∧ (∀ hdl p (paths : Option (Nat → Option String)) count,
      retOkOrError (run_inference_multi_with_config o hdl p paths count env) env) := by
  refine ⟨?_, ?_, ?_, ?_, ?_, ?_, ?_, ?_, ?_, ?_, ?_, ?_, ?_,
    fun mp p len => errform_run_text_inference o mp p len env,
    fun mp p ip => errform_run_inference o mp p ip env,
    fun mp p paths count => errform_run_inference_multi o mp p paths count env,
    fun hdl p ip => errform_run_inference_with_config o hdl p ip env,
    fun hdl p paths count => errform_run_inference_multi_with_config o hdl p paths count env⟩
  · rintro mp (rfl | rfl) <;> simp [check_native_health]
  · intro s d hs hm
    simp [check_native_health, tryAcquire, check_oga_result, hs, hm]
  · intro s d hs hm ht
    simp [check_native_health, tryAcquire, check_oga_result, hs, hm, ht, relAll]
  · rintro mp (rfl | rfl) <;> simp [create_config, set_error]
  · intro s d hs hcc
    simp [create_config, tryAcquire, check_oga_result, hs, hcc]
  · simp [config_clear_providers, set_error]
  · intro hdl d hh hcl
    simp [config_clear_providers, tryOp, check_oga_result, hh, hcl]
  · intro name
    simp [config_append_provider, set_error]
  · rintro hdl name hh (rfl | rfl) <;> simp [config_append_provider, set_error, hh]
  · intro hdl s d hh hs hap
    simp [config_append_provider, tryOp, check_oga_result, hh, hs, hap]
  · intro pr k v
    simp [config_set_provider_option, set_error]
  · rintro hdl pr k v hh (rfl | rfl | rfl) <;>
      simp [config_set_provider_option, set_error, hh]
  · intro hdl prs ks vs d hh hso
    simp [config_set_provider_option, tryOp, check_oga_result, hh, hso]

/-- Witness for the amended C4: a failing append-provider engine call
returns `-3` with the unprefixed context message in the buffer, while
`check_native_health` on a NULL path returns `-1` leaving the buffers
untouched. -/
theorem claim_C4_witness :
    ((config_append_provider { allOkOracle with appendProvider := some "cuda missing" } 7
        (some "cuda") { resultBuf := "", errorBuf := "" }).1 = -3
      ∧ (config_append_provider { allOkOracle with appendProvider := some "cuda missing" } 7
          (some "cuda") { resultBuf := "", errorBuf := "" }).2.env.errorBuf
        = "Append provider failed: cuda missing")
    ∧ ((check_native_health allOkOracle none { resultBuf := "", errorBuf := "old" }).1 = -1
      ∧ (check_native_health allOkOracle none { resultBuf := "", errorBuf := "old" }).2.env
        = { resultBuf := "", errorBuf := "old" }) :=
  ⟨(claim_C4 { allOkOracle with appendProvider := some "cuda missing" }
      { resultBuf := "", errorBuf := "" }).2.2.2.2.2.2.2.2.2.1 7 "cuda" "cuda missing"
      (by decide) (by decide) rfl,
   (claim_C4 allOkOracle { resultBuf := "", errorBuf := "old" }).1 none (Or.inl rfl)⟩
